import Mathlib

/-!
# Verification of the LeetCode Patterns Aggregator pipeline

A shallow embedding of the pure data-processing core of the aggregator
(`src/aggregator/aggregator.py`, `src/aggregator/gemini.py`,
`src/sheet/sheet_populator.py`).  Effectful steps (HTTP fetches, the LLM
client) are modelled by passing their outcomes as explicit values.
Python strings are modelled as Lean `String`s; `str.lower`, `str.strip`
and friends are modelled on the ASCII fragment the data lives in
(`Char.toLower` is exactly CPython's lowering on the basic latin range).
-/

/-- Python truthiness of an optional string: `None` and `""` are falsy. -/
def pyFalsy (o : Option String) : Bool :=
  match o with
  | none => true
  | some s => s == ""

/-- `a or b or ... or dflt` over optional strings (Python `or` chain). -/
def firstTruthy (xs : List (Option String)) (dflt : String) : String :=
  match xs with
  | [] => dflt
  | x :: rest =>
    match x with
    | some s => if s == "" then firstTruthy rest dflt else s
    | none => firstTruthy rest dflt

/-- `str.strip()` on a character list (leading and trailing whitespace). -/
def pyStripList (l : List Char) : List Char :=
  ((l.dropWhile Char.isWhitespace).reverse.dropWhile Char.isWhitespace).reverse

/-- `str.strip()` on strings. -/
def pyStrip (s : String) : String :=
  ⟨pyStripList s.data⟩

/-- `str.lower()` (ASCII fragment): lower every character. -/
def pyLower (s : String) : String :=
  ⟨s.data.map Char.toLower⟩

/-- Characters matched by the slug-regex class `[a-z0-9]`. -/
def isSlugChar (c : Char) : Bool :=
  (97 ≤ c.toNat && c.toNat ≤ 122) || (48 ≤ c.toNat && c.toNat ≤ 57)

/-- `re.sub(r"[^a-z0-9]+", "-", ·)`: replace each maximal run of
non-`[a-z0-9]` characters by a single hyphen.  The Boolean records whether
we are inside such a run. -/
def collapseRuns : List Char → Bool → List Char
  | [], _ => []
  | c :: cs, inRun =>
    if isSlugChar c then c :: collapseRuns cs false
    else if inRun then collapseRuns cs true
    else '-' :: collapseRuns cs true

/-- `str.strip("-")`: drop leading and trailing hyphens. -/
def stripHyphens (l : List Char) : List Char :=
  ((l.dropWhile (· == '-')).reverse.dropWhile (· == '-')).reverse

/-- `slugify` from `src/aggregator/aggregator.py`: strip, lowercase,
collapse non-`[a-z0-9]` runs to single hyphens, trim hyphens. -/
def slugify (s : String) : String :=
  ⟨stripHyphens (collapseRuns ((pyStripList s.data).map Char.toLower) false)⟩

/-! ## Character-level facts -/

theorem isSlugChar_ne_hyphen {c : Char} (h : isSlugChar c = true) : c ≠ '-' := by
  rintro rfl
  simp [isSlugChar] at h

theorem toLower_fix {c : Char} (h : isSlugChar c = true ∨ c = '-') :
    c.toLower = c := by
  rcases h with h | rfl
  · simp only [isSlugChar, Bool.or_eq_true, Bool.and_eq_true, decide_eq_true_eq] at h
    simp only [Char.toLower]
    rw [if_neg]
    omega
  · decide

theorem not_whitespace_of_slug {c : Char} (h : isSlugChar c = true ∨ c = '-') :
    c.isWhitespace = false := by
  rcases h with h | rfl
  · simp only [isSlugChar, Bool.or_eq_true, Bool.and_eq_true, decide_eq_true_eq] at h
    simp only [Char.isWhitespace, Bool.or_eq_false_iff, decide_eq_false_iff_not]
    refine ⟨⟨⟨?_, ?_⟩, ?_⟩, ?_⟩ <;> rintro rfl <;> revert h <;> decide
  · decide

/-! ## Facts about `collapseRuns` -/

theorem mem_collapseRuns : ∀ (l : List Char) (b : Bool) (c : Char),
    c ∈ collapseRuns l b → isSlugChar c = true ∨ c = '-' := by
  intro l
  induction l with
  | nil => intro b c h; simp [collapseRuns] at h
  | cons a as ih =>
    intro b c h
    by_cases ha : isSlugChar a = true
    · simp only [collapseRuns, ha, if_pos, List.mem_cons] at h
      rcases h with rfl | h
      · exact Or.inl ha
      · exact ih false c h
    · simp only [collapseRuns, ha, if_neg, Bool.false_eq_true, if_false] at h
      cases b with
      | true => exact ih true c (by simpa using h)
      | false =>
        simp only [Bool.false_eq_true, if_false, List.mem_cons] at h
        rcases h with rfl | h
        · exact Or.inr rfl
        · exact ih true c h

theorem head_collapseRuns_true : ∀ (l : List Char) (c : Char),
    (collapseRuns l true).head? = some c → isSlugChar c = true := by
  intro l
  induction l with
  | nil => intro c h; simp [collapseRuns] at h
  | cons a as ih =>
    intro c h
    by_cases ha : isSlugChar a = true
    · simp only [collapseRuns, ha, if_pos, List.head?_cons, Option.some.injEq] at h
      exact h ▸ ha
    · simp only [collapseRuns, ha, Bool.false_eq_true, if_false, if_pos] at h
      exact ih c h

theorem chain'_collapseRuns : ∀ (l : List Char) (b : Bool),
    (collapseRuns l b).Chain' (fun a c => ¬(a = '-' ∧ c = '-')) := by
  intro l
  induction l with
  | nil => intro b; simp [collapseRuns]
  | cons a as ih =>
    intro b
    by_cases ha : isSlugChar a = true
    · simp only [collapseRuns, ha, if_pos]
      rw [List.chain'_cons']
      refine ⟨?_, ih false⟩
      intro c _
      rintro ⟨rfl, -⟩
      exact isSlugChar_ne_hyphen ha rfl
    · simp only [collapseRuns, ha, Bool.false_eq_true, if_false]
      cases b with
      | true => simpa using ih true
      | false =>
        simp only [Bool.false_eq_true, if_false]
        rw [List.chain'_cons']
        refine ⟨?_, ih true⟩
        intro c hc
        rintro ⟨-, rfl⟩
        exact isSlugChar_ne_hyphen (head_collapseRuns_true as '-' hc) rfl

theorem collapseRuns_fix : ∀ l : List Char,
    (∀ c ∈ l, isSlugChar c = true ∨ c = '-') →
    l.Chain' (fun a c => ¬(a = '-' ∧ c = '-')) →
    collapseRuns l false = l ∧ (l.head? ≠ some '-' → collapseRuns l true = l) := by
  intro l
  induction l with
  | nil => intro _ _; exact ⟨rfl, fun _ => rfl⟩
  | cons a as ih =>
    intro hmem hch
    rw [List.chain'_cons'] at hch
    obtain ⟨hrel, hch'⟩ := hch
    have hmem' : ∀ c ∈ as, isSlugChar c = true ∨ c = '-' :=
      fun c hc => hmem c (List.mem_cons_of_mem a hc)
    obtain ⟨ihf, iht⟩ := ih hmem' hch'
    rcases hmem a (List.mem_cons_self a as) with ha | rfl
    · constructor
      · simp [collapseRuns, ha, ihf]
      · intro _; simp [collapseRuns, ha, ihf]
    · have hhd : as.head? ≠ some '-' := by
        intro h
        exact hrel '-' h ⟨rfl, rfl⟩
      constructor
      · simp only [collapseRuns, if_neg (by decide : ¬ isSlugChar '-' = true),
          Bool.false_eq_true, if_false, List.cons.injEq, true_and]
        exact iht hhd
      · intro hcontra
        simp at hcontra

/-! ## Small list utilities -/

theorem listInf_of_pref {α : Type} {l₁ l₂ : List α} (h : l₁ <+: l₂) : l₁ <:+: l₂ := by
  obtain ⟨t, rfl⟩ := h
  exact ⟨[], t, rfl⟩

theorem listInf_of_suff {α : Type} {l₁ l₂ : List α} (h : l₁ <:+ l₂) : l₁ <:+: l₂ := by
  obtain ⟨s, rfl⟩ := h
  exact ⟨s, [], by simp⟩

theorem dropWhile_all_false {α : Type} {p : α → Bool} :
    ∀ l : List α, (∀ a ∈ l, p a = false) → l.dropWhile p = l := by
  intro l h
  induction l with
  | nil => rfl
  | cons a as ih =>
    rw [List.dropWhile_cons_of_neg]
    simp [h a (List.mem_cons_self a as)]

theorem map_id_of {α : Type} {f : α → α} :
    ∀ l : List α, (∀ a ∈ l, f a = a) → l.map f = l := by
  intro l h
  induction l with
  | nil => rfl
  | cons a as ih =>
    simp only [List.map_cons, h a (List.mem_cons_self a as), List.cons.injEq, true_and]
    exact ih (fun c hc => h c (List.mem_cons_of_mem a hc))

theorem head?_of_pref {α : Type} {l₁ l₂ : List α} {a : α} (h : l₁ <+: l₂)
    (ha : l₁.head? = some a) : l₂.head? = some a := by
  obtain ⟨t, rfl⟩ := h
  cases l₁ with
  | nil => simp at ha
  | cons b bs => simpa using ha

theorem head?_dropWhile_false {α : Type} {p : α → Bool} {l : List α} {a : α}
    (h : (l.dropWhile p).head? = some a) : p a = false := by
  have hw := List.head?_dropWhile_not p l
  rw [h] at hw
  exact hw

/-! ## Facts about `stripHyphens` -/

theorem stripHyphens_pref_dropWhile (l : List Char) :
    stripHyphens l <+: l.dropWhile (· == '-') := by
  unfold stripHyphens
  have h3 : (l.dropWhile (· == '-')).reverse.dropWhile (· == '-') <:+
      (l.dropWhile (· == '-')).reverse := List.dropWhile_suffix _
  rw [← List.reverse_suffix]
  simpa using h3

theorem stripHyphens_infix_self (l : List Char) : stripHyphens l <:+: l :=
  List.IsInfix.trans (listInf_of_pref (stripHyphens_pref_dropWhile l))
    (listInf_of_suff (List.dropWhile_suffix _))

theorem stripHyphens_head {l : List Char} {c : Char}
    (h : (stripHyphens l).head? = some c) : c ≠ '-' := by
  have h1 := head?_of_pref (stripHyphens_pref_dropWhile l) h
  have h2 := head?_dropWhile_false h1
  simpa using h2

theorem stripHyphens_getLast {l : List Char} {c : Char}
    (h : (stripHyphens l).getLast? = some c) : c ≠ '-' := by
  unfold stripHyphens at h
  rw [List.getLast?_reverse] at h
  have h2 := head?_dropWhile_false h
  simpa using h2

theorem dropWhile_id_of_head {α : Type} {p : α → Bool} {l : List α}
    (h : ∀ a, l.head? = some a → p a = false) : l.dropWhile p = l := by
  cases l with
  | nil => rfl
  | cons a as =>
    rw [List.dropWhile_cons_of_neg]
    simp [h a rfl]

theorem stripHyphens_fix {l : List Char}
    (hh : l.head? ≠ some '-') (hl : l.getLast? ≠ some '-') :
    stripHyphens l = l := by
  unfold stripHyphens
  have h1 : l.dropWhile (· == '-') = l := by
    apply dropWhile_id_of_head
    intro a ha
    simp only [beq_eq_false_iff_ne, ne_eq]
    rintro rfl
    exact hh ha
  rw [h1]
  have h2 : l.reverse.dropWhile (· == '-') = l.reverse := by
    apply dropWhile_id_of_head
    intro a ha
    rw [List.head?_reverse] at ha
    simp only [beq_eq_false_iff_ne, ne_eq]
    rintro rfl
    exact hl ha
  rw [h2, List.reverse_reverse]

/-! ## Properties of `slugify` -/

theorem string_mk_data (s : String) : String.mk s.data = s := rfl

theorem slugify_chars (x : String) :
    ∀ c ∈ (slugify x).data, isSlugChar c = true ∨ c = '-' := by
  intro c hc
  have h1 : c ∈ collapseRuns ((pyStripList x.data).map Char.toLower) false :=
    (stripHyphens_infix_self _).sublist.subset hc
  exact mem_collapseRuns _ _ _ h1

theorem slugify_chain (x : String) :
    (slugify x).data.Chain' (fun a b => ¬(a = '-' ∧ b = '-')) :=
  List.Chain'.infix (chain'_collapseRuns _ _) (stripHyphens_infix_self _)

theorem slugify_head (x : String) : (slugify x).data.head? ≠ some '-' := by
  intro h
  exact stripHyphens_head h rfl

theorem slugify_getLast (x : String) : (slugify x).data.getLast? ≠ some '-' := by
  intro h
  exact stripHyphens_getLast h rfl

theorem slugify_idem (x : String) : slugify (slugify x) = slugify x := by
  have hch := slugify_chars x
  have hstrip : pyStripList (slugify x).data = (slugify x).data := by
    unfold pyStripList
    have hnw : ∀ c ∈ (slugify x).data, c.isWhitespace = false :=
      fun c hc => not_whitespace_of_slug (hch c hc)
    rw [dropWhile_all_false _ hnw,
      dropWhile_all_false _ (fun c hc => hnw c (List.mem_reverse.mp hc)),
      List.reverse_reverse]
  have hlower : (slugify x).data.map Char.toLower = (slugify x).data :=
    map_id_of _ (fun c hc => toLower_fix (hch c hc))
  have hcoll : collapseRuns (slugify x).data false = (slugify x).data :=
    (collapseRuns_fix _ hch (slugify_chain x)).1
  have hsh : stripHyphens (slugify x).data = (slugify x).data :=
    stripHyphens_fix (slugify_head x) (slugify_getLast x)
  show String.mk (stripHyphens (collapseRuns ((pyStripList (slugify x).data).map
    Char.toLower) false)) = slugify x
  rw [hstrip, hlower, hcoll, hsh, string_mk_data]

/-- C5: `slugify` is idempotent; its output consists only of lowercase
letters, digits and hyphens, with no two adjacent hyphens and no leading or
trailing hyphen; and `slugify "3Sum!! Two Pointers" = "3sum-two-pointers"`. -/
theorem c5_slugify_spec :
    (∀ x : String,
      slugify (slugify x) = slugify x ∧
      (∀ c ∈ (slugify x).data, isSlugChar c = true ∨ c = '-') ∧
      (slugify x).data.Chain' (fun a b => ¬(a = '-' ∧ b = '-')) ∧
      (slugify x).data.head? ≠ some '-' ∧
      (slugify x).data.getLast? ≠ some '-') ∧
    slugify "3Sum!! Two Pointers" = "3sum-two-pointers" :=
  ⟨fun x => ⟨slugify_idem x, slugify_chars x, slugify_chain x,
    slugify_head x, slugify_getLast x⟩, by decide⟩

/-- Witness for C5: instantiates the quantified statement at a concrete
string and discharges the membership hypothesis there. -/
theorem c5_slugify_spec_witness :
    slugify (slugify "3Sum!! Two Pointers") = slugify "3Sum!! Two Pointers" ∧
    (isSlugChar 'a' = true ∨ 'a' = '-') :=
  ⟨(c5_slugify_spec.1 "3Sum!! Two Pointers").1,
   (c5_slugify_spec.1 "ab").2.1 'a' (by decide)⟩

/-! ## Data model

`Problem` is the canonical normalized problem record, `Pattern` the
canonical normalized pattern record (§3 of the design).  `ProblemDict` and
`RawPattern` model the loosely-typed scraped dictionaries: an absent key is
`none` (Python `dict.get` returns `None`). -/

structure Problem where
  title : String
  difficulty : String
  url : String
deriving Repr, DecidableEq

structure ProblemDict where
  title : Option String := none
  name : Option String := none
  question : Option String := none
  difficulty : Option String := none
  level : Option String := none
  tier : Option String := none
  url : Option String := none
  link : Option String := none
  leetcode_url : Option String := none
deriving Repr, DecidableEq

structure RawPattern where
  pattern : Option String := none
  name : Option String := none
  title : Option String := none
  url : Option String := none
  link : Option String := none
  notes : Option String := none
  description : Option String := none
  summary : Option String := none
  problems : Option (List ProblemDict) := none
  questions : Option (List ProblemDict) := none
deriving Repr, DecidableEq

structure Pattern where
  pattern : String
  url : String
  problems : List Problem
  notes : String
deriving Repr, DecidableEq

/-- `normalize_problems` body for one entry: resolve aliased keys with
Python `or` chains and synthesize a LeetCode URL from the title slug when
no URL-like key is truthy. -/
def normalize_problem (p : ProblemDict) : Problem :=
  let title := firstTruthy [p.title, p.name, p.question] "Unknown Problem"
  let difficulty := firstTruthy [p.difficulty, p.level, p.tier] "Unknown"
  let url0 := firstTruthy [p.url, p.link, p.leetcode_url] ""
  let url := if url0 == "" && title != "" then
      "https://leetcode.com/problems/" ++ slugify title ++ "/"
    else url0
  ⟨title, difficulty, url⟩

/-- `normalize_problems` from `src/aggregator/aggregator.py`. -/
def normalize_problems (ps : List ProblemDict) : List Problem :=
  ps.map normalize_problem

/-- `entry.get("problems") or entry.get("questions") or []`. -/
def firstTruthyL (xs : List (Option (List ProblemDict))) : List ProblemDict :=
  match xs with
  | [] => []
  | x :: rest =>
    match x with
    | some l => if l.isEmpty then firstTruthyL rest else l
    | none => firstTruthyL rest

/-- `base_url.rstrip("/")`. -/
def rstripSlash (s : String) : String :=
  ⟨(s.data.reverse.dropWhile (· == '/')).reverse⟩

/-- `normalize_pattern` from `src/aggregator/aggregator.py`.  Note the
Python operator precedence: the conditional expression covers the whole
`or` chain, so a falsy name forces `url = base_url`. -/
def normalize_pattern (e : RawPattern) (base_url : String) : Pattern :=
  let name := firstTruthy [e.pattern, e.name, e.title] ""
  let url := if name != "" then
      firstTruthy [e.url, e.link] (rstripSlash base_url ++ "/" ++ slugify name)
    else base_url
  let notes := firstTruthy [e.notes, e.description, e.summary] ""
  ⟨name, url, normalize_problems (firstTruthyL [e.problems, e.questions]), notes⟩

/-- Worker of `dedupe_patterns`: `seen` is the set of already-seen
lowercased pattern names. -/
def dedupeAux : List Pattern → List String → List Pattern
  | [], _ => []
  | p :: ps, seen =>
    if seen.contains (pyLower p.pattern) then dedupeAux ps seen
    else p :: dedupeAux ps (pyLower p.pattern :: seen)

/-- `dedupe_patterns` from `src/aggregator/aggregator.py`: deduplicate by
case-insensitive pattern name, preserving first occurrence. -/
def dedupe_patterns (ps : List Pattern) : List Pattern :=
  dedupeAux ps []
/-- `PROBLEM_LIBRARY` from `src/aggregator/aggregator.py`: the static
name-keyed lookup table of extra candidate problems used by enrichment. -/
def PROBLEM_LIBRARY : List (String × List Problem) := [
  ("Two Pointers", [
    ⟨"Two Sum II - Input Array Is Sorted", "Medium", "https://leetcode.com/problems/two-sum-ii-input-array-is-sorted/"⟩,
    ⟨"3Sum", "Medium", "https://leetcode.com/problems/3sum/"⟩,
    ⟨"Container With Most Water", "Medium", "https://leetcode.com/problems/container-with-most-water/"⟩,
    ⟨"Trapping Rain Water", "Hard", "https://leetcode.com/problems/trapping-rain-water/"⟩,
    ⟨"Remove Nth Node From End of List", "Medium", "https://leetcode.com/problems/remove-nth-node-from-end-of-list/"⟩,
    ⟨"Partition List", "Medium", "https://leetcode.com/problems/partition-list/"⟩,
    ⟨"Squares of a Sorted Array", "Easy", "https://leetcode.com/problems/squares-of-a-sorted-array/"⟩,
    ⟨"Move Zeroes", "Easy", "https://leetcode.com/problems/move-zeroes/"⟩
  ]),
  ("Binary Search", [
    ⟨"Binary Search", "Easy", "https://leetcode.com/problems/binary-search/"⟩,
    ⟨"Search Insert Position", "Easy", "https://leetcode.com/problems/search-insert-position/"⟩,
    ⟨"Find First and Last Position of Element in Sorted Array", "Medium", "https://leetcode.com/problems/find-first-and-last-position-of-element-in-sorted-array/"⟩,
    ⟨"Search in Rotated Sorted Array", "Medium", "https://leetcode.com/problems/search-in-rotated-sorted-array/"⟩,
    ⟨"Find Minimum in Rotated Sorted Array", "Medium", "https://leetcode.com/problems/find-minimum-in-rotated-sorted-array/"⟩,
    ⟨"Capacity To Ship Packages Within D Days", "Medium", "https://leetcode.com/problems/capacity-to-ship-packages-within-d-days/"⟩,
    ⟨"Koko Eating Bananas", "Medium", "https://leetcode.com/problems/koko-eating-bananas/"⟩,
    ⟨"Median of Two Sorted Arrays", "Hard", "https://leetcode.com/problems/median-of-two-sorted-arrays/"⟩
  ]),
  ("Sliding Window", [
    ⟨"Longest Substring Without Repeating Characters", "Medium", "https://leetcode.com/problems/longest-substring-without-repeating-characters/"⟩,
    ⟨"Minimum Window Substring", "Hard", "https://leetcode.com/problems/minimum-window-substring/"⟩,
    ⟨"Permutation in String", "Medium", "https://leetcode.com/problems/permutation-in-string/"⟩,
    ⟨"Longest Repeating Character Replacement", "Medium", "https://leetcode.com/problems/longest-repeating-character-replacement/"⟩,
    ⟨"Sliding Window Maximum", "Hard", "https://leetcode.com/problems/sliding-window-maximum/"⟩,
    ⟨"Fruit Into Baskets", "Medium", "https://leetcode.com/problems/fruit-into-baskets/"⟩,
    ⟨"Subarrays with K Different Integers", "Hard", "https://leetcode.com/problems/subarrays-with-k-different-integers/"⟩,
    ⟨"Minimum Size Subarray Sum", "Medium", "https://leetcode.com/problems/minimum-size-subarray-sum/"⟩
  ]),
  ("Dynamic Programming", [
    ⟨"Climbing Stairs", "Easy", "https://leetcode.com/problems/climbing-stairs/"⟩,
    ⟨"House Robber", "Medium", "https://leetcode.com/problems/house-robber/"⟩,
    ⟨"Coin Change", "Medium", "https://leetcode.com/problems/coin-change/"⟩,
    ⟨"Longest Increasing Subsequence", "Medium", "https://leetcode.com/problems/longest-increasing-subsequence/"⟩,
    ⟨"Longest Common Subsequence", "Medium", "https://leetcode.com/problems/longest-common-subsequence/"⟩,
    ⟨"Edit Distance", "Hard", "https://leetcode.com/problems/edit-distance/"⟩,
    ⟨"Word Break", "Medium", "https://leetcode.com/problems/word-break/"⟩,
    ⟨"Partition Equal Subset Sum", "Medium", "https://leetcode.com/problems/partition-equal-subset-sum/"⟩
  ]),
  ("Backtracking", [
    ⟨"Subsets", "Medium", "https://leetcode.com/problems/subsets/"⟩,
    ⟨"Permutations", "Medium", "https://leetcode.com/problems/permutations/"⟩,
    ⟨"Combination Sum", "Medium", "https://leetcode.com/problems/combination-sum/"⟩,
    ⟨"Letter Combinations of a Phone Number", "Medium", "https://leetcode.com/problems/letter-combinations-of-a-phone-number/"⟩,
    ⟨"Palindrome Partitioning", "Medium", "https://leetcode.com/problems/palindrome-partitioning/"⟩,
    ⟨"N-Queens", "Hard", "https://leetcode.com/problems/n-queens/"⟩,
    ⟨"Word Search", "Medium", "https://leetcode.com/problems/word-search/"⟩,
    ⟨"Generate Parentheses", "Medium", "https://leetcode.com/problems/generate-parentheses/"⟩
  ]),
  ("Breadth-First Search", [
    ⟨"Binary Tree Level Order Traversal", "Medium", "https://leetcode.com/problems/binary-tree-level-order-traversal/"⟩,
    ⟨"Rotting Oranges", "Medium", "https://leetcode.com/problems/rotting-oranges/"⟩,
    ⟨"Word Ladder", "Hard", "https://leetcode.com/problems/word-ladder/"⟩,
    ⟨"Number of Islands", "Medium", "https://leetcode.com/problems/number-of-islands/"⟩,
    ⟨"Shortest Path in Binary Matrix", "Medium", "https://leetcode.com/problems/shortest-path-in-binary-matrix/"⟩,
    ⟨"Open the Lock", "Medium", "https://leetcode.com/problems/open-the-lock/"⟩
  ]),
  ("Depth-First Search", [
    ⟨"Number of Islands", "Medium", "https://leetcode.com/problems/number-of-islands/"⟩,
    ⟨"Clone Graph", "Medium", "https://leetcode.com/problems/clone-graph/"⟩,
    ⟨"Course Schedule", "Medium", "https://leetcode.com/problems/course-schedule/"⟩,
    ⟨"Pacific Atlantic Water Flow", "Medium", "https://leetcode.com/problems/pacific-atlantic-water-flow/"⟩,
    ⟨"Graph Valid Tree", "Medium", "https://leetcode.com/problems/graph-valid-tree/"⟩,
    ⟨"Path Sum III", "Medium", "https://leetcode.com/problems/path-sum-iii/"⟩
  ]),
  ("Greedy", [
    ⟨"Jump Game", "Medium", "https://leetcode.com/problems/jump-game/"⟩,
    ⟨"Jump Game II", "Medium", "https://leetcode.com/problems/jump-game-ii/"⟩,
    ⟨"Merge Intervals", "Medium", "https://leetcode.com/problems/merge-intervals/"⟩,
    ⟨"Non-overlapping Intervals", "Medium", "https://leetcode.com/problems/non-overlapping-intervals/"⟩,
    ⟨"Gas Station", "Medium", "https://leetcode.com/problems/gas-station/"⟩,
    ⟨"Partition Labels", "Medium", "https://leetcode.com/problems/partition-labels/"⟩,
    ⟨"Minimum Number of Arrows to Burst Balloons", "Medium", "https://leetcode.com/problems/minimum-number-of-arrows-to-burst-balloons/"⟩,
    ⟨"Candy", "Hard", "https://leetcode.com/problems/candy/"⟩
  ]),
  ("Disjoint Set / Union-Find", [
    ⟨"Redundant Connection", "Medium", "https://leetcode.com/problems/redundant-connection/"⟩,
    ⟨"Number of Provinces", "Medium", "https://leetcode.com/problems/number-of-provinces/"⟩,
    ⟨"Accounts Merge", "Medium", "https://leetcode.com/problems/accounts-merge/"⟩,
    ⟨"Graph Valid Tree", "Medium", "https://leetcode.com/problems/graph-valid-tree/"⟩,
    ⟨"Evaluate Division", "Medium", "https://leetcode.com/problems/evaluate-division/"⟩,
    ⟨"Smallest String With Swaps", "Medium", "https://leetcode.com/problems/smallest-string-with-swaps/"⟩,
    ⟨"Most Stones Removed with Same Row or Column", "Medium", "https://leetcode.com/problems/most-stones-removed-with-same-row-or-column/"⟩
  ]),
  ("Topological Sort", [
    ⟨"Course Schedule", "Medium", "https://leetcode.com/problems/course-schedule/"⟩,
    ⟨"Course Schedule II", "Medium", "https://leetcode.com/problems/course-schedule-ii/"⟩,
    ⟨"Alien Dictionary", "Hard", "https://leetcode.com/problems/alien-dictionary/"⟩,
    ⟨"Parallel Courses", "Medium", "https://leetcode.com/problems/parallel-courses/"⟩,
    ⟨"Sequence Reconstruction", "Medium", "https://leetcode.com/problems/sequence-reconstruction/"⟩
  ]),
  ("Priority Queue / Heap", [
    ⟨"Kth Largest Element in an Array", "Medium", "https://leetcode.com/problems/kth-largest-element-in-an-array/"⟩,
    ⟨"Top K Frequent Elements", "Medium", "https://leetcode.com/problems/top-k-frequent-elements/"⟩,
    ⟨"Task Scheduler", "Medium", "https://leetcode.com/problems/task-scheduler/"⟩,
    ⟨"Merge k Sorted Lists", "Hard", "https://leetcode.com/problems/merge-k-sorted-lists/"⟩,
    ⟨"Find Median from Data Stream", "Hard", "https://leetcode.com/problems/find-median-from-data-stream/"⟩,
    ⟨"K Closest Points to Origin", "Medium", "https://leetcode.com/problems/k-closest-points-to-origin/"⟩,
    ⟨"Reorganize String", "Medium", "https://leetcode.com/problems/reorganize-string/"⟩
  ]),
  ("Prefix Sum / Difference Array", [
    ⟨"Range Sum Query - Immutable", "Easy", "https://leetcode.com/problems/range-sum-query-immutable/"⟩,
    ⟨"Subarray Sum Equals K", "Medium", "https://leetcode.com/problems/subarray-sum-equals-k/"⟩,
    ⟨"Continuous Subarray Sum", "Medium", "https://leetcode.com/problems/continuous-subarray-sum/"⟩,
    ⟨"Find Pivot Index", "Easy", "https://leetcode.com/problems/find-pivot-index/"⟩,
    ⟨"Longest Subarray of 1\x27s After Deleting One Element", "Medium", "https://leetcode.com/problems/longest-subarray-of-1s-after-deleting-one-element/"⟩,
    ⟨"Minimum Value to Get Positive Step by Step Sum", "Easy", "https://leetcode.com/problems/minimum-value-to-get-positive-step-by-step-sum/"⟩
  ]),
  ("Monotonic Stack / Queue", [
    ⟨"Daily Temperatures", "Medium", "https://leetcode.com/problems/daily-temperatures/"⟩,
    ⟨"Next Greater Element I", "Easy", "https://leetcode.com/problems/next-greater-element-i/"⟩,
    ⟨"Next Greater Element II", "Medium", "https://leetcode.com/problems/next-greater-element-ii/"⟩,
    ⟨"Largest Rectangle in Histogram", "Hard", "https://leetcode.com/problems/largest-rectangle-in-histogram/"⟩,
    ⟨"Maximal Rectangle", "Hard", "https://leetcode.com/problems/maximal-rectangle/"⟩,
    ⟨"Trapping Rain Water", "Hard", "https://leetcode.com/problems/trapping-rain-water/"⟩,
    ⟨"Remove K Digits", "Medium", "https://leetcode.com/problems/remove-k-digits/"⟩
  ]),
  ("Trie", [
    ⟨"Implement Trie (Prefix Tree)", "Medium", "https://leetcode.com/problems/implement-trie-prefix-tree/"⟩,
    ⟨"Design Add and Search Words Data Structure", "Medium", "https://leetcode.com/problems/design-add-and-search-words-data-structure/"⟩,
    ⟨"Word Search II", "Hard", "https://leetcode.com/problems/word-search-ii/"⟩,
    ⟨"Replace Words", "Medium", "https://leetcode.com/problems/replace-words/"⟩,
    ⟨"Longest Word in Dictionary", "Medium", "https://leetcode.com/problems/longest-word-in-dictionary/"⟩,
    ⟨"Design Search Autocomplete System", "Hard", "https://leetcode.com/problems/design-search-autocomplete-system/"⟩
  ]),
  ("Interval Scheduling", [
    ⟨"Non-overlapping Intervals", "Medium", "https://leetcode.com/problems/non-overlapping-intervals/"⟩,
    ⟨"Insert Interval", "Medium", "https://leetcode.com/problems/insert-interval/"⟩,
    ⟨"Meeting Rooms II", "Medium", "https://leetcode.com/problems/meeting-rooms-ii/"⟩,
    ⟨"Minimum Number of Arrows to Burst Balloons", "Medium", "https://leetcode.com/problems/minimum-number-of-arrows-to-burst-balloons/"⟩,
    ⟨"Merge Intervals", "Medium", "https://leetcode.com/problems/merge-intervals/"⟩,
    ⟨"Car Pooling", "Medium", "https://leetcode.com/problems/car-pooling/"⟩
  ]),
  ("Segment Tree / Fenwick", [
    ⟨"Range Sum Query - Mutable", "Medium", "https://leetcode.com/problems/range-sum-query-mutable/"⟩,
    ⟨"Count of Smaller Numbers After Self", "Hard", "https://leetcode.com/problems/count-of-smaller-numbers-after-self/"⟩,
    ⟨"Reverse Pairs", "Hard", "https://leetcode.com/problems/reverse-pairs/"⟩,
    ⟨"Longest Increasing Subsequence", "Medium", "https://leetcode.com/problems/longest-increasing-subsequence/"⟩,
    ⟨"K-th Smallest Prime Fraction", "Hard", "https://leetcode.com/problems/k-th-smallest-prime-fraction/"⟩
  ])
]

/-- `LOCAL_MINIMAL_FALLBACK` from `src/aggregator/aggregator.py`: the
hardcoded minimal built-in pattern set, as raw (pre-normalization) entries. -/
def LOCAL_MINIMAL_FALLBACK : List RawPattern := [
  { pattern := some "Two Pointers", url := some "", notes := some "Move two indices from ends or same side to shrink search space.",
    problems := some [
      { title := some "Two Sum II - Input Array Is Sorted", difficulty := some "Medium", url := some "https://leetcode.com/problems/two-sum-ii-input-array-is-sorted/" },
      { title := some "3Sum", difficulty := some "Medium", url := some "https://leetcode.com/problems/3sum/" },
      { title := some "Container With Most Water", difficulty := some "Medium", url := some "https://leetcode.com/problems/container-with-most-water/" }
    ] },
  { pattern := some "Binary Search", url := some "", notes := some "Halve the search space; prove monotonicity before applying.",
    problems := some [
      { title := some "Binary Search", difficulty := some "Easy", url := some "https://leetcode.com/problems/binary-search/" },
      { title := some "Search Insert Position", difficulty := some "Easy", url := some "https://leetcode.com/problems/search-insert-position/" },
      { title := some "Find Peak Element", difficulty := some "Medium", url := some "https://leetcode.com/problems/find-peak-element/" }
    ] },
  { pattern := some "Sliding Window", url := some "", notes := some "Maintain a window over the array/string to track counts or sums efficiently.",
    problems := some [
      { title := some "Longest Substring Without Repeating Characters", difficulty := some "Medium", url := some "https://leetcode.com/problems/longest-substring-without-repeating-characters/" },
      { title := some "Minimum Size Subarray Sum", difficulty := some "Medium", url := some "https://leetcode.com/problems/minimum-size-subarray-sum/" },
      { title := some "Permutation in String", difficulty := some "Medium", url := some "https://leetcode.com/problems/permutation-in-string/" }
    ] },
  { pattern := some "Dynamic Programming", url := some "", notes := some "Overlapping subproblems + optimal substructure; define state, transition, base cases.",
    problems := some [
      { title := some "Climbing Stairs", difficulty := some "Easy", url := some "https://leetcode.com/problems/climbing-stairs/" },
      { title := some "Coin Change", difficulty := some "Medium", url := some "https://leetcode.com/problems/coin-change/" },
      { title := some "Longest Increasing Subsequence", difficulty := some "Medium", url := some "https://leetcode.com/problems/longest-increasing-subsequence/" }
    ] },
  { pattern := some "Backtracking", url := some "", notes := some "DFS over decision tree; choose, explore, unchoose.",
    problems := some [
      { title := some "Subsets", difficulty := some "Medium", url := some "https://leetcode.com/problems/subsets/" },
      { title := some "Permutations", difficulty := some "Medium", url := some "https://leetcode.com/problems/permutations/" },
      { title := some "Combination Sum", difficulty := some "Medium", url := some "https://leetcode.com/problems/combination-sum/" }
    ] },
  { pattern := some "Breadth-First Search", url := some "", notes := some "Level-order traversal for shortest paths or minimum steps.",
    problems := some [
      { title := some "Binary Tree Level Order Traversal", difficulty := some "Medium", url := some "https://leetcode.com/problems/binary-tree-level-order-traversal/" },
      { title := some "Word Ladder", difficulty := some "Hard", url := some "https://leetcode.com/problems/word-ladder/" },
      { title := some "Rotting Oranges", difficulty := some "Medium", url := some "https://leetcode.com/problems/rotting-oranges/" }
    ] },
  { pattern := some "Depth-First Search", url := some "", notes := some "Recursive/stack traversal for connectivity, components, and enumerations.",
    problems := some [
      { title := some "Number of Islands", difficulty := some "Medium", url := some "https://leetcode.com/problems/number-of-islands/" },
      { title := some "Clone Graph", difficulty := some "Medium", url := some "https://leetcode.com/problems/clone-graph/" },
      { title := some "Course Schedule", difficulty := some "Medium", url := some "https://leetcode.com/problems/course-schedule/" }
    ] },
  { pattern := some "Greedy", url := some "", notes := some "Pick locally optimal choices that lead to global optimum; prove with exchange arguments.",
    problems := some [
      { title := some "Jump Game", difficulty := some "Medium", url := some "https://leetcode.com/problems/jump-game/" },
      { title := some "Merge Intervals", difficulty := some "Medium", url := some "https://leetcode.com/problems/merge-intervals/" },
      { title := some "Gas Station", difficulty := some "Medium", url := some "https://leetcode.com/problems/gas-station/" }
    ] },
  { pattern := some "Disjoint Set / Union-Find", url := some "", notes := some "Maintain dynamic connectivity with union/find and path compression + union by rank.",
    problems := some [
      { title := some "Redundant Connection", difficulty := some "Medium", url := some "https://leetcode.com/problems/redundant-connection/" },
      { title := some "Number of Provinces", difficulty := some "Medium", url := some "https://leetcode.com/problems/number-of-provinces/" },
      { title := some "Accounts Merge", difficulty := some "Medium", url := some "https://leetcode.com/problems/accounts-merge/" }
    ] },
  { pattern := some "Topological Sort", url := some "", notes := some "Order DAG nodes with in-degree (Kahn) or DFS post-order to detect cycles.",
    problems := some [
      { title := some "Course Schedule", difficulty := some "Medium", url := some "https://leetcode.com/problems/course-schedule/" },
      { title := some "Course Schedule II", difficulty := some "Medium", url := some "https://leetcode.com/problems/course-schedule-ii/" },
      { title := some "Alien Dictionary", difficulty := some "Hard", url := some "https://leetcode.com/problems/alien-dictionary/" }
    ] },
  { pattern := some "Priority Queue / Heap", url := some "", notes := some "Maintain best/worst element efficiently; great for k-th problems and greedy checks.",
    problems := some [
      { title := some "Kth Largest Element in an Array", difficulty := some "Medium", url := some "https://leetcode.com/problems/kth-largest-element-in-an-array/" },
      { title := some "Task Scheduler", difficulty := some "Medium", url := some "https://leetcode.com/problems/task-scheduler/" },
      { title := some "Merge k Sorted Lists", difficulty := some "Hard", url := some "https://leetcode.com/problems/merge-k-sorted-lists/" }
    ] },
  { pattern := some "Prefix Sum / Difference Array", url := some "", notes := some "Precompute cumulative sums to query ranges in O(1); use diffs for range updates.",
    problems := some [
      { title := some "Range Sum Query - Immutable", difficulty := some "Easy", url := some "https://leetcode.com/problems/range-sum-query-immutable/" },
      { title := some "Subarray Sum Equals K", difficulty := some "Medium", url := some "https://leetcode.com/problems/subarray-sum-equals-k/" },
      { title := some "Corporate Flight Bookings", difficulty := some "Medium", url := some "https://leetcode.com/problems/corporate-flight-bookings/" }
    ] },
  { pattern := some "Monotonic Stack / Queue", url := some "", notes := some "Maintain increasing/decreasing stack to find next/prev greater/smaller efficiently.",
    problems := some [
      { title := some "Daily Temperatures", difficulty := some "Medium", url := some "https://leetcode.com/problems/daily-temperatures/" },
      { title := some "Largest Rectangle in Histogram", difficulty := some "Hard", url := some "https://leetcode.com/problems/largest-rectangle-in-histogram/" },
      { title := some "Sliding Window Maximum", difficulty := some "Hard", url := some "https://leetcode.com/problems/sliding-window-maximum/" }
    ] },
  { pattern := some "Trie", url := some "", notes := some "Prefix tree for fast prefix queries, word search, and replacement.",
    problems := some [
      { title := some "Implement Trie (Prefix Tree)", difficulty := some "Medium", url := some "https://leetcode.com/problems/implement-trie-prefix-tree/" },
      { title := some "Replace Words", difficulty := some "Medium", url := some "https://leetcode.com/problems/replace-words/" },
      { title := some "Word Search II", difficulty := some "Hard", url := some "https://leetcode.com/problems/word-search-ii/" }
    ] },
  { pattern := some "Interval Scheduling", url := some "", notes := some "Sort intervals; merge or choose greedily based on start/end times.",
    problems := some [
      { title := some "Non-overlapping Intervals", difficulty := some "Medium", url := some "https://leetcode.com/problems/non-overlapping-intervals/" },
      { title := some "Meeting Rooms II", difficulty := some "Medium", url := some "https://leetcode.com/problems/meeting-rooms-ii/" },
      { title := some "Insert Interval", difficulty := some "Medium", url := some "https://leetcode.com/problems/insert-interval/" }
    ] },
  { pattern := some "Segment Tree / Fenwick", url := some "", notes := some "Range queries/updates in O(log n); choose Fenwick for simplicity, segment tree for flexibility.",
    problems := some [
      { title := some "Range Sum Query - Mutable", difficulty := some "Medium", url := some "https://leetcode.com/problems/range-sum-query-mutable/" },
      { title := some "Count of Smaller Numbers After Self", difficulty := some "Hard", url := some "https://leetcode.com/problems/count-of-smaller-numbers-after-self/" },
      { title := some "Longest Substring with At Most K Distinct Characters", difficulty := some "Hard", url := some "https://leetcode.com/problems/longest-substring-with-at-most-k-distinct-characters/" }
    ] }
]

/-- `PROBLEM_LIBRARY.get(name)`. -/
def libLookup (name : String) : Option (List Problem) :=
  (PROBLEM_LIBRARY.find? (fun kv => kv.1 == name)).map (fun kv => kv.2)

/-- Inner loop of `enrich_problem_lists`: walk the library candidates,
skipping case-insensitive title duplicates, appending the rest, and
breaking once the (post-append) problem count has reached `min_count`. -/
def enrichLoop (min_count : Int) : List Problem → List Problem → List String → List Problem
  | [], probs, _ => probs
  | c :: cs, probs, existing =>
    if existing.contains (pyLower c.title) then
      enrichLoop min_count cs probs existing
    else
      let probs' := probs ++ [c]
      if min_count ≤ (probs'.length : Int) then probs'
      else enrichLoop min_count cs probs' (pyLower c.title :: existing)

/-- `enrich_problem_lists` body for one pattern (`if not library: continue`
skips both a missing and an empty library entry). -/
def enrichOne (min_count : Int) (p : Pattern) : Pattern :=
  match libLookup p.pattern with
  | none => p
  | some lib =>
    if lib.isEmpty then p
    else { p with
      problems := enrichLoop min_count lib p.problems
        (p.problems.map (fun pr => pyLower pr.title)) }

/-- `enrich_problem_lists` from `src/aggregator/aggregator.py`. -/
def enrich_problem_lists (ps : List Pattern) (min_count : Int := 8) : List Pattern :=
  ps.map (enrichOne min_count)

/-! ## Facts about `firstTruthy` -/

theorem firstTruthy_all_falsy : ∀ (xs : List (Option String)) (dflt : String),
    (∀ x ∈ xs, pyFalsy x = true) → firstTruthy xs dflt = dflt := by
  intro xs
  induction xs with
  | nil => intro dflt _; rfl
  | cons x rest ih =>
    intro dflt h
    have hx := h x (List.mem_cons_self x rest)
    have hrest := fun y hy => h y (List.mem_cons_of_mem x hy)
    match x, hx with
    | none, _ => exact ih dflt hrest
    | some s, hx =>
      simp only [pyFalsy] at hx
      simp only [firstTruthy, hx, if_pos]
      exact ih dflt hrest

theorem firstTruthy_ne_empty : ∀ (xs : List (Option String)) (dflt : String),
    dflt ≠ "" → firstTruthy xs dflt ≠ "" := by
  intro xs
  induction xs with
  | nil => intro dflt h; exact h
  | cons x rest ih =>
    intro dflt h
    match x with
    | none => exact ih dflt h
    | some s =>
      simp only [firstTruthy]
      by_cases hs : s == ""
      · simp only [hs, if_pos]
        exact ih dflt h
      · simp only [hs, Bool.false_eq_true, if_false]
        simpa using hs

/-! ## C6: `normalize_problems` -/

theorem normalize_problem_title {p : ProblemDict}
    (h1 : pyFalsy p.title = true) (h2 : pyFalsy p.name = true)
    (h3 : pyFalsy p.question = true) :
    (normalize_problem p).title = "Unknown Problem" := by
  show firstTruthy [p.title, p.name, p.question] "Unknown Problem" = "Unknown Problem"
  apply firstTruthy_all_falsy
  intro x hx
  simp only [List.mem_cons, List.not_mem_nil, or_false] at hx
  rcases hx with rfl | rfl | rfl <;> assumption

theorem normalize_problem_difficulty {p : ProblemDict}
    (h1 : pyFalsy p.difficulty = true) (h2 : pyFalsy p.level = true)
    (h3 : pyFalsy p.tier = true) :
    (normalize_problem p).difficulty = "Unknown" := by
  show firstTruthy [p.difficulty, p.level, p.tier] "Unknown" = "Unknown"
  apply firstTruthy_all_falsy
  intro x hx
  simp only [List.mem_cons, List.not_mem_nil, or_false] at hx
  rcases hx with rfl | rfl | rfl <;> assumption

theorem normalize_problem_title_ne (p : ProblemDict) :
    (normalize_problem p).title ≠ "" := by
  show firstTruthy [p.title, p.name, p.question] "Unknown Problem" ≠ ""
  exact firstTruthy_ne_empty _ _ (by decide)

theorem normalize_problem_url {p : ProblemDict}
    (h1 : pyFalsy p.url = true) (h2 : pyFalsy p.link = true)
    (h3 : pyFalsy p.leetcode_url = true) :
    (normalize_problem p).url =
      "https://leetcode.com/problems/" ++ slugify (normalize_problem p).title ++ "/" := by
  have hurl0 : firstTruthy [p.url, p.link, p.leetcode_url] "" = "" := by
    apply firstTruthy_all_falsy
    intro x hx
    simp only [List.mem_cons, List.not_mem_nil, or_false] at hx
    rcases hx with rfl | rfl | rfl <;> assumption
  have htitle := normalize_problem_title_ne p
  show (if (firstTruthy [p.url, p.link, p.leetcode_url] "" == "") &&
        (firstTruthy [p.title, p.name, p.question] "Unknown Problem" != "") then
      "https://leetcode.com/problems/" ++
        slugify (firstTruthy [p.title, p.name, p.question] "Unknown Problem") ++ "/"
    else firstTruthy [p.url, p.link, p.leetcode_url] "") =
    "https://leetcode.com/problems/" ++
      slugify (normalize_problem p).title ++ "/"
  rw [if_pos]
  · rfl
  · simp only [hurl0, Bool.and_eq_true, beq_self_eq_true, true_and, bne_iff_ne, ne_eq]
    exact htitle

/-- C6: `normalize_problems` keeps length and order (the `i`-th output is the
normalization of the `i`-th input) and synthesizes defaults: a problem with
no truthy title-like field gets title `"Unknown Problem"`, a missing
difficulty becomes `"Unknown"`, and a missing URL is synthesized as a
LeetCode-style URL from the slug of the resolved title. -/
theorem c6_normalize_problems_spec :
    (∀ ps : List ProblemDict, (normalize_problems ps).length = ps.length) ∧
    (∀ (ps : List ProblemDict) (i : Nat) (h : i < ps.length)
      (h' : i < (normalize_problems ps).length),
      (normalize_problems ps).get ⟨i, h'⟩ = normalize_problem (ps.get ⟨i, h⟩)) ∧
    (∀ p : ProblemDict, pyFalsy p.title = true → pyFalsy p.name = true →
      pyFalsy p.question = true → (normalize_problem p).title = "Unknown Problem") ∧
    (∀ p : ProblemDict, pyFalsy p.difficulty = true → pyFalsy p.level = true →
      pyFalsy p.tier = true → (normalize_problem p).difficulty = "Unknown") ∧
    (∀ p : ProblemDict, pyFalsy p.url = true → pyFalsy p.link = true →
      pyFalsy p.leetcode_url = true → (normalize_problem p).url =
        "https://leetcode.com/problems/" ++ slugify (normalize_problem p).title ++ "/") := by
  refine ⟨?_, ?_, ?_, ?_, ?_⟩
  · intro ps; simp [normalize_problems]
  · intro ps i h h'; simp [normalize_problems]
  · intro p h1 h2 h3; exact normalize_problem_title h1 h2 h3
  · intro p h1 h2 h3; exact normalize_problem_difficulty h1 h2 h3
  · intro p h1 h2 h3; exact normalize_problem_url h1 h2 h3

/-- Witness for C6: a problem entry with every key absent normalizes to the
default record. -/
theorem c6_normalize_problems_spec_witness :
    (normalize_problems [{}]).get ⟨0, by decide⟩ = normalize_problem {} ∧
    (normalize_problem {}).title = "Unknown Problem" ∧
    (normalize_problem {}).difficulty = "Unknown" ∧
    (normalize_problem {}).url =
      "https://leetcode.com/problems/" ++ slugify (normalize_problem {}).title ++ "/" :=
  ⟨c6_normalize_problems_spec.2.1 [{}] 0 (by decide) (by decide),
   c6_normalize_problems_spec.2.2.1 {} (by decide) (by decide) (by decide),
   c6_normalize_problems_spec.2.2.2.1 {} (by decide) (by decide) (by decide),
   c6_normalize_problems_spec.2.2.2.2 {} (by decide) (by decide) (by decide)⟩

/-! ## C7: `dedupe_patterns` -/

theorem dedupeAux_sublist : ∀ (ps : List Pattern) (seen : List String),
    (dedupeAux ps seen).Sublist ps := by
  intro ps
  induction ps with
  | nil => intro seen; simp [dedupeAux]
  | cons p ps ih =>
    intro seen
    by_cases hc : seen.contains (pyLower p.pattern)
    · simp only [dedupeAux, hc, if_pos]
      exact List.Sublist.cons p (ih seen)
    · simp only [dedupeAux, hc, Bool.false_eq_true, if_false]
      exact List.Sublist.cons₂ p (ih _)

theorem dedupeAux_keys : ∀ (ps : List Pattern) (seen : List String),
    ((dedupeAux ps seen).map (fun p => pyLower p.pattern)).Nodup ∧
    ∀ k ∈ (dedupeAux ps seen).map (fun p => pyLower p.pattern),
      seen.contains k = false := by
  intro ps
  induction ps with
  | nil => intro seen; simp [dedupeAux]
  | cons p ps ih =>
    intro seen
    by_cases hc : seen.contains (pyLower p.pattern)
    · simpa only [dedupeAux, hc, if_pos] using ih seen
    · simp only [dedupeAux, hc, Bool.false_eq_true, if_false, List.map_cons]
      obtain ⟨ihnd, ihcontains⟩ := ih (pyLower p.pattern :: seen)
      constructor
      · rw [List.nodup_cons]
        refine ⟨?_, ihnd⟩
        intro hmem
        have := ihcontains _ hmem
        simp [List.contains_cons] at this
      · intro k hk
        rcases List.mem_cons.mp hk with rfl | hk'
        · simpa using hc
        · have := ihcontains k hk'
          simp only [List.contains_cons, Bool.or_eq_false_iff] at this
          exact this.2

theorem dedupeAux_first : ∀ (ps : List Pattern) (seen : List String) (i : Nat)
    (h : i < ps.length),
    (∀ (j : Nat) (hj : j < i),
      pyLower ((ps.get ⟨j, Nat.lt_trans hj h⟩).pattern) ≠
        pyLower ((ps.get ⟨i, h⟩).pattern)) →
    seen.contains (pyLower ((ps.get ⟨i, h⟩).pattern)) = false →
    ps.get ⟨i, h⟩ ∈ dedupeAux ps seen := by
  intro ps
  induction ps with
  | nil => intro seen i h; exact absurd h (Nat.not_lt_zero i)
  | cons p ps ih =>
    intro seen i h hdist hseen
    cases i with
    | zero =>
      simp only [List.get] at hseen ⊢
      simp only [dedupeAux, hseen, Bool.false_eq_true, if_false]
      exact List.mem_cons_self _ _
    | succ i =>
      have h' : i < ps.length := Nat.lt_of_succ_lt_succ h
      simp only [List.get] at hseen hdist ⊢
      by_cases hc : seen.contains (pyLower p.pattern)
      · simp only [dedupeAux, hc, if_pos]
        refine ih seen i h' ?_ ?_
        · intro j hj
          have := hdist (j + 1) (Nat.succ_lt_succ hj)
          simpa using this
        · exact hseen
      · simp only [dedupeAux, hc, Bool.false_eq_true, if_false]
        apply List.mem_cons_of_mem
        refine ih _ i h' ?_ ?_
        · intro j hj
          have := hdist (j + 1) (Nat.succ_lt_succ hj)
          simpa using this
        · have hne : pyLower p.pattern ≠ pyLower ((ps.get ⟨i, h'⟩).pattern) := by
            have := hdist 0 (Nat.succ_pos i)
            simpa using this
          simp only [List.contains_cons, Bool.or_eq_false_iff]
          refine ⟨?_, hseen⟩
          simpa using fun he => hne he.symm

/-- C7: `dedupe_patterns` returns a subsequence of its input whose
case-insensitive names are pairwise distinct; the first record bearing each
name survives (later records with the same name are dropped entirely); two
records both named "Greedy" in any case collapse to the first. -/
theorem c7_dedupe_patterns_spec :
    (∀ ps : List Pattern, (dedupe_patterns ps).Sublist ps) ∧
    (∀ ps : List Pattern,
      ((dedupe_patterns ps).map (fun p => pyLower p.pattern)).Nodup) ∧
    (∀ (ps : List Pattern) (i : Nat) (h : i < ps.length),
      (∀ (j : Nat) (hj : j < i),
        pyLower ((ps.get ⟨j, Nat.lt_trans hj h⟩).pattern) ≠
          pyLower ((ps.get ⟨i, h⟩).pattern)) →
      ps.get ⟨i, h⟩ ∈ dedupe_patterns ps) ∧
    (∀ p q : Pattern, pyLower p.pattern = "greedy" → pyLower q.pattern = "greedy" →
      dedupe_patterns [p, q] = [p]) := by
  refine ⟨?_, ?_, ?_, ?_⟩
  · intro ps; exact dedupeAux_sublist ps []
  · intro ps; exact (dedupeAux_keys ps []).1
  · intro ps i h hdist
    exact dedupeAux_first ps [] i h hdist rfl
  · intro p q hp hq
    simp [dedupe_patterns, dedupeAux, hp, hq, List.contains_cons]

/-- Witness for C7: two patterns named `GREEDY`/`greedy` collapse to the
first, which is also the surviving first occurrence. -/
theorem c7_dedupe_patterns_spec_witness :
    dedupe_patterns [⟨"GREEDY", "a", [], ""⟩, ⟨"greedy", "b", [], ""⟩] =
      [⟨"GREEDY", "a", [], ""⟩] ∧
    (([⟨"GREEDY", "a", [], ""⟩, ⟨"greedy", "b", [], ""⟩] : List Pattern).get
      ⟨0, by decide⟩) ∈
      dedupe_patterns [⟨"GREEDY", "a", [], ""⟩, ⟨"greedy", "b", [], ""⟩] :=
  ⟨c7_dedupe_patterns_spec.2.2.2 ⟨"GREEDY", "a", [], ""⟩ ⟨"greedy", "b", [], ""⟩
      (by decide) (by decide),
   c7_dedupe_patterns_spec.2.2.1 [⟨"GREEDY", "a", [], ""⟩, ⟨"greedy", "b", [], ""⟩]
      0 (by decide) (fun j hj => absurd hj (Nat.not_lt_zero j))⟩

/-! ## C2: `enrich_problem_lists` -/

theorem enrichLoop_spec (mc : Int) : ∀ (cands probs : List Problem) (existing : List String),
    ∃ app, enrichLoop mc cands probs existing = probs ++ app ∧
      (∀ pr ∈ app, pr ∈ cands ∧ existing.contains (pyLower pr.title) = false) ∧
      (app.map (fun q => pyLower q.title)).Nodup ∧
      ((probs.length : Int) < mc → (probs.length : Int) + app.length ≤ mc) ∧
      (mc ≤ (probs.length : Int) → app.length ≤ 1) := by
  intro cands
  induction cands with
  | nil =>
    intro probs existing
    exact ⟨[], by simp [enrichLoop], by simp, by simp, fun h => by simpa using h.le,
      fun _ => by simp⟩
  | cons c cs ih =>
    intro probs existing
    by_cases hdup : existing.contains (pyLower c.title) = true
    · obtain ⟨app, heq, hmem, hnd, hlen, hover⟩ := ih probs existing
      refine ⟨app, ?_, ?_, hnd, hlen, hover⟩
      · simp only [enrichLoop, hdup, if_pos]
        exact heq
      · intro pr hpr
        obtain ⟨h1, h2⟩ := hmem pr hpr
        exact ⟨List.mem_cons_of_mem c h1, h2⟩
    · by_cases hstop : mc ≤ ((probs ++ [c]).length : Int)
      · refine ⟨[c], ?_, ?_, by simp, ?_, ?_⟩
        · simp only [enrichLoop, hdup, Bool.false_eq_true, if_false]
          rw [if_pos hstop]
        · intro pr hpr
          rw [List.mem_singleton] at hpr
          subst hpr
          exact ⟨List.mem_cons_self _ _, by simpa using hdup⟩
        · intro h
          simp only [List.length_append, List.length_singleton] at hstop
          simp only [List.length_singleton]
          push_cast at hstop ⊢
          omega
        · intro _
          simp
      · obtain ⟨app', heq, hmem, hnd, hlen, hover⟩ :=
          ih (probs ++ [c]) (pyLower c.title :: existing)
        refine ⟨c :: app', ?_, ?_, ?_, ?_, ?_⟩
        · simp only [enrichLoop, hdup, Bool.false_eq_true, if_false]
          rw [if_neg hstop, heq, List.append_assoc]
          rfl
        · intro pr hpr
          rcases List.mem_cons.mp hpr with rfl | hpr'
          · exact ⟨List.mem_cons_self _ _, by simpa using hdup⟩
          · obtain ⟨h1, h2⟩ := hmem pr hpr'
            simp only [List.contains_cons, Bool.or_eq_false_iff] at h2
            exact ⟨List.mem_cons_of_mem c h1, h2.2⟩
        · rw [List.map_cons, List.nodup_cons]
          refine ⟨?_, hnd⟩
          intro hmem'
          obtain ⟨pr, hpr, hkey⟩ := List.mem_map.mp hmem'
          have h2 := (hmem pr hpr).2
          simp only [List.contains_cons, Bool.or_eq_false_iff,
            beq_eq_false_iff_ne, ne_eq] at h2
          exact h2.1 hkey
        · intro hlt
          have hlt' : ((probs ++ [c]).length : Int) < mc := Int.not_le.mp hstop
          have := hlen hlt'
          simp only [List.length_append, List.length_singleton, List.length_cons] at this ⊢
          push_cast at this ⊢
          omega
        · intro hge
          exfalso
          apply hstop
          simp only [List.length_append, List.length_singleton]
          push_cast
          omega

theorem enrichOne_spec (mc : Int) (p : Pattern) :
    p.problems <+: (enrichOne mc p).problems ∧
    (∀ pr ∈ (enrichOne mc p).problems.drop p.problems.length,
      (p.problems.map (fun q => pyLower q.title)).contains (pyLower pr.title) = false ∧
      ∃ lib, libLookup p.pattern = some lib ∧ pr ∈ lib) ∧
    (((enrichOne mc p).problems.drop p.problems.length).map
      (fun q => pyLower q.title)).Nodup ∧
    ((p.problems.length : Int) < mc → ((enrichOne mc p).problems.length : Int) ≤ mc) ∧
    (mc ≤ (p.problems.length : Int) →
      (enrichOne mc p).problems.length ≤ p.problems.length + 1) := by
  unfold enrichOne
  cases hlook : libLookup p.pattern with
  | none =>
    refine ⟨ List.prefix_refl _, ?_, ?_, ?_, ?_⟩
    · intro pr hpr
      rw [List.drop_length] at hpr
      exact absurd hpr (List.not_mem_nil pr)
    · rw [List.drop_length]; simp
    · intro h; exact h.le
    · intro _; exact Nat.le_succ _
  | some lib =>
    by_cases hemp : lib.isEmpty
    · simp only [hemp, if_pos]
      refine ⟨ List.prefix_refl _, ?_, ?_, ?_, ?_⟩
      · intro pr hpr
        rw [List.drop_length] at hpr
        exact absurd hpr (List.not_mem_nil pr)
      · rw [List.drop_length]; simp
      · intro h; exact h.le
      · intro _; exact Nat.le_succ _
    · simp only [hemp, Bool.false_eq_true, if_false]
      obtain ⟨app, heq, hmem, hnd, hlen, hover⟩ :=
        enrichLoop_spec mc lib p.problems (p.problems.map (fun pr => pyLower pr.title))
      simp only [heq]
      rw [List.drop_left]
      refine ⟨⟨app, rfl⟩, ?_, hnd, ?_, ?_⟩
      · intro pr hpr
        obtain ⟨h1, h2⟩ := hmem pr hpr
        exact ⟨h2, lib, rfl, h1⟩
      · intro h
        have := hlen h
        simp only [List.length_append]
        push_cast
        push_cast at this
        omega
      · intro h
        have := hover h
        simp only [List.length_append]
        omega

/-- The C2 example pattern: "Two Pointers" with 2 existing problems, both of
which also appear among the 8 library candidates for that name. -/
def twoPointersTwo : Pattern :=
  ⟨"Two Pointers", "https://seanprashad.com/leetcode-patterns/two-pointers",
   [⟨"3Sum", "Medium", "https://leetcode.com/problems/3sum/"⟩,
    ⟨"Move Zeroes", "Easy", "https://leetcode.com/problems/move-zeroes/"⟩], ""⟩

/-- C2 (amended): enrichment is a per-pattern map that keeps every existing
problem in place (input problems are a prefix of the output), appends only
library candidates whose lowercased titles are fresh (also pairwise fresh
among themselves); when a pattern starts below `min_count` the count never
exceeds `min_count`; a pattern already at or above `min_count` still
receives at most one further candidate (the source checks the bound only
after an append).  The 2-existing / 8-library example yields exactly 8 with
the originals first and no case-insensitive duplicate titles. -/
theorem c2_enrich_problem_lists_spec :
    (∀ (mc : Int) (ps : List Pattern),
      (enrich_problem_lists ps mc).length = ps.length) ∧
    (∀ (mc : Int) (ps : List Pattern) (i : Nat) (h : i < ps.length)
      (h' : i < (enrich_problem_lists ps mc).length),
      (enrich_problem_lists ps mc).get ⟨i, h'⟩ = enrichOne mc (ps.get ⟨i, h⟩)) ∧
    (∀ (mc : Int) (p : Pattern),
      p.problems <+: (enrichOne mc p).problems ∧
      (∀ pr ∈ (enrichOne mc p).problems.drop p.problems.length,
        (p.problems.map (fun q => pyLower q.title)).contains (pyLower pr.title) = false ∧
        ∃ lib, libLookup p.pattern = some lib ∧ pr ∈ lib) ∧
      (((enrichOne mc p).problems.drop p.problems.length).map
        (fun q => pyLower q.title)).Nodup ∧
      ((p.problems.length : Int) < mc →
        ((enrichOne mc p).problems.length : Int) ≤ mc) ∧
      (mc ≤ (p.problems.length : Int) →
        (enrichOne mc p).problems.length ≤ p.problems.length + 1)) ∧
    (enrich_problem_lists [twoPointersTwo] 8 =
      [⟨"Two Pointers", "https://seanprashad.com/leetcode-patterns/two-pointers",
        [⟨"3Sum", "Medium", "https://leetcode.com/problems/3sum/"⟩,
         ⟨"Move Zeroes", "Easy", "https://leetcode.com/problems/move-zeroes/"⟩,
         ⟨"Two Sum II - Input Array Is Sorted", "Medium",
          "https://leetcode.com/problems/two-sum-ii-input-array-is-sorted/"⟩,
         ⟨"Container With Most Water", "Medium",
          "https://leetcode.com/problems/container-with-most-water/"⟩,
         ⟨"Trapping Rain Water", "Hard",
          "https://leetcode.com/problems/trapping-rain-water/"⟩,
         ⟨"Remove Nth Node From End of List", "Medium",
          "https://leetcode.com/problems/remove-nth-node-from-end-of-list/"⟩,
         ⟨"Partition List", "Medium", "https://leetcode.com/problems/partition-list/"⟩,
         ⟨"Squares of a Sorted Array", "Easy",
          "https://leetcode.com/problems/squares-of-a-sorted-array/"⟩], ""⟩] ∧
      ∀ p ∈ enrich_problem_lists [twoPointersTwo] 8,
        (p.problems.map (fun q => pyLower q.title)).Nodup) := by
  refine ⟨?_, ?_, ?_, by decide, by decide⟩
  · intro mc ps; simp [enrich_problem_lists]
  · intro mc ps i h h'; simp [enrich_problem_lists]
  · intro mc p; exact enrichOne_spec mc p

/-- C2 counterexample to the claim as stated: with `min_count = 1` a pattern
whose single problem already meets the minimum still receives one more
library candidate, so candidates are not appended "only until the problem
count reaches `min_count`". -/
theorem c2_enrich_counterexample :
    (⟨"Two Pointers", "", [⟨"X", "Easy", ""⟩], ""⟩ : Pattern).problems.length = 1 ∧
    (enrich_problem_lists [⟨"Two Pointers", "", [⟨"X", "Easy", ""⟩], ""⟩] 1).map
      (fun p => p.problems.length) = [2] :=
  ⟨rfl, by decide⟩

/-- Witness for C2: the amended theorem instantiated on the example pattern. -/
theorem c2_enrich_problem_lists_spec_witness :
    twoPointersTwo.problems <+: (enrichOne 8 twoPointersTwo).problems ∧
    (enrich_problem_lists [twoPointersTwo] 8).get ⟨0, by decide⟩ =
      enrichOne 8 (([twoPointersTwo] : List Pattern).get ⟨0, by decide⟩) ∧
    ((enrichOne 8 twoPointersTwo).problems.length : Int) ≤ 8 :=
  ⟨(c2_enrich_problem_lists_spec.2.2.1 8 twoPointersTwo).1,
   c2_enrich_problem_lists_spec.2.1 8 [twoPointersTwo] 0 (by decide) (by decide),
   (c2_enrich_problem_lists_spec.2.2.1 8 twoPointersTwo).2.2.2.1 (by decide)⟩

/-! ## C8: `sanitize_title` (sheet_populator) -/

/-- The characters banned from sheet tab titles. -/
def bannedChars : List Char := ['/', '\\', '?', '*', '[', ']']

/-- `sanitize_title` from `src/sheet/sheet_populator.py`: drop banned
characters, strip whitespace, truncate to 90, default to `"Pattern"`. -/
def sanitize_title (title : String) : String :=
  let sanitized := pyStrip ⟨title.data.filter (fun c => !(bannedChars.contains c))⟩
  let truncated : String := ⟨sanitized.data.take 90⟩
  if truncated == "" then "Pattern" else truncated

theorem stripBoth_sublist {α : Type} (p : α → Bool) (l : List α) :
    ((l.dropWhile p).reverse.dropWhile p).reverse.Sublist l := by
  have h3 : (l.dropWhile p).reverse.dropWhile p <:+ (l.dropWhile p).reverse :=
    List.dropWhile_suffix _
  have h2 : ((l.dropWhile p).reverse.dropWhile p).reverse <+: l.dropWhile p := by
    rw [← List.reverse_suffix]
    simpa using h3
  exact List.Sublist.trans h2.sublist (List.dropWhile_sublist p)

theorem pyStripList_eq_nil {l : List Char} (h : ∀ c ∈ l, c.isWhitespace = true) :
    pyStripList l = [] := by
  unfold pyStripList
  rw [List.dropWhile_eq_nil_iff.mpr h]
  rfl

/-- `sanitize_title` with its local bindings expanded. -/
theorem sanitize_title_eq (s : String) :
    sanitize_title s =
      if (⟨(pyStripList (s.data.filter
          (fun c => !(bannedChars.contains c)))).take 90⟩ : String) == "" then "Pattern"
      else ⟨(pyStripList (s.data.filter (fun c => !(bannedChars.contains c)))).take 90⟩ :=
  rfl

/-- C8: `sanitize_title` output never contains a banned character, has at
most 90 characters, and is the literal `"Pattern"` whenever the input
consists only of whitespace and banned characters. -/
theorem c8_sanitize_title_spec : ∀ s : String,
    (∀ c ∈ (sanitize_title s).data, bannedChars.contains c = false) ∧
    (sanitize_title s).data.length ≤ 90 ∧
    ((∀ c ∈ s.data, c.isWhitespace = true ∨ bannedChars.contains c = true) →
      sanitize_title s = "Pattern") := by
  intro s
  refine ⟨?_, ?_, ?_⟩
  · intro c hc
    rw [sanitize_title_eq] at hc
    by_cases hemp : (⟨(pyStripList (s.data.filter
        (fun c => !(bannedChars.contains c)))).take 90⟩ : String) == ""
    · rw [if_pos hemp] at hc
      revert hc
      revert c
      decide
    · rw [if_neg hemp] at hc
      have h1 : c ∈ pyStripList (s.data.filter (fun c => !(bannedChars.contains c))) :=
        (List.take_sublist 90 _).subset hc
      have h2 : c ∈ s.data.filter (fun c => !(bannedChars.contains c)) :=
        (stripBoth_sublist _ _).subset h1
      have h3 := List.of_mem_filter h2
      simpa using h3
  · rw [sanitize_title_eq]
    by_cases hemp : (⟨(pyStripList (s.data.filter
        (fun c => !(bannedChars.contains c)))).take 90⟩ : String) == ""
    · rw [if_pos hemp]; decide
    · rw [if_neg hemp]
      show ((pyStripList (s.data.filter (fun c => !(bannedChars.contains c)))).take
        90).length ≤ 90
      rw [List.length_take]
      exact Nat.min_le_left _ _
  · intro hws
    have hfil : ∀ c ∈ s.data.filter (fun c => !(bannedChars.contains c)),
        c.isWhitespace = true := by
      intro c hc
      have h1 := List.of_mem_filter hc
      have h2 := List.mem_of_mem_filter hc
      rcases hws c h2 with h | h
      · exact h
      · rw [h] at h1
        simp at h1
    rw [sanitize_title_eq]
    rw [pyStripList_eq_nil hfil]
    rfl

/-- Witness for C8: a whitespace-and-banned-only input sanitizes to
`"Pattern"`; a plain input keeps its banned-free character. -/
theorem c8_sanitize_title_spec_witness :
    sanitize_title " /*[]? " = "Pattern" ∧ bannedChars.contains 'a' = false :=
  ⟨(c8_sanitize_title_spec " /*[]? ").2.2 (by decide),
   (c8_sanitize_title_spec "a").1 'a' (by decide)⟩

/-! ## gemini.py: `format_problems` and `summarize_patterns` -/

/-- One bullet line of `format_problems`:
`f"- {title} ({difficulty}) {url}".strip()`. -/
def pyLine (p : Problem) : String :=
  pyStrip ("- " ++ p.title ++ " (" ++ p.difficulty ++ ") " ++ p.url)

/-- `format_problems` from `src/aggregator/gemini.py`: up to 3 bullet
lines joined by newlines, or `"-"` when there are no problems. -/
def format_problems (ps : List Problem) : String :=
  let formatted := (ps.take 3).map pyLine
  if formatted.isEmpty then "-" else String.intercalate "\n" formatted

theorem pref_dropTrailing {α : Type} {p : α → Bool} (a : List α) (c : α)
    (hc : p c = false) (t : List α) :
    a ++ [c] <+: ((a ++ [c] ++ t).reverse.dropWhile p).reverse := by
  rw [List.reverse_append, List.reverse_append]
  simp only [List.reverse_cons, List.reverse_nil, List.nil_append, List.singleton_append]
  rw [List.dropWhile_append]
  by_cases hemp : (t.reverse.dropWhile p).isEmpty
  · rw [if_pos hemp, List.dropWhile_cons_of_neg (by simp [hc]), List.reverse_cons,
      List.reverse_reverse]
  · rw [if_neg hemp, List.reverse_append, List.reverse_cons, List.reverse_reverse]
    exact ⟨(t.reverse.dropWhile p).reverse, by simp⟩

theorem pyStripList_decomp (a : List Char) (c : Char) (t : List Char)
    (hhead : ∀ x, (a ++ [c] ++ t).head? = some x → x.isWhitespace = false)
    (hc : c.isWhitespace = false) :
    a ++ [c] <+: pyStripList (a ++ [c] ++ t) := by
  unfold pyStripList
  rw [dropWhile_id_of_head hhead]
  exact pref_dropTrailing a c hc t

theorem pyLine_parts (p : Problem) :
    p.title.data <:+: (pyLine p).data ∧ p.difficulty.data <:+: (pyLine p).data := by
  have hdata : ("- " ++ p.title ++ " (" ++ p.difficulty ++ ") " ++ p.url).data =
      ('-' :: ' ' :: (p.title.data ++ ' ' :: '(' :: p.difficulty.data) ++ [')']) ++
        (' ' :: p.url.data) := by
    simp [String.data_append, List.append_assoc]
  have hp : ('-' :: ' ' :: (p.title.data ++ ' ' :: '(' :: p.difficulty.data)) ++ [')'] <+:
      (pyLine p).data := by
    show _ <+: pyStripList ("- " ++ p.title ++ " (" ++ p.difficulty ++ ") " ++ p.url).data
    rw [hdata]
    apply pyStripList_decomp
    · intro x hx
      simp only [List.cons_append, List.head?_cons, Option.some.injEq] at hx
      subst hx
      decide
    · decide
  have hinf : ∀ l : List Char,
      l <:+: '-' :: ' ' :: (p.title.data ++ ' ' :: '(' :: p.difficulty.data) →
      l <:+: (pyLine p).data := by
    intro l hl
    refine List.IsInfix.trans (List.IsInfix.trans hl ?_) (listInf_of_pref hp)
    exact listInf_of_pref ⟨[')'], rfl⟩
  constructor
  · apply hinf
    exact ⟨['-', ' '], ' ' :: '(' :: p.difficulty.data, by simp⟩
  · apply hinf
    refine ⟨'-' :: ' ' :: p.title.data ++ [' ', '('], [], ?_⟩
    simp

/-- C10: `format_problems` returns `"-"` for an empty list, else one bullet
line per problem for the first `min 3 length` problems, joined by newlines,
each line containing that problem's title and difficulty. -/
theorem c10_format_problems_spec :
    (∀ ps : List Problem, ps = [] → format_problems ps = "-") ∧
    (∀ ps : List Problem, ps ≠ [] →
      format_problems ps = String.intercalate "\n" ((ps.take 3).map pyLine) ∧
      ((ps.take 3).map pyLine).length = min 3 ps.length ∧
      (∀ (i : Nat) (h : i < ps.length) (h3 : i < ((ps.take 3).map pyLine).length),
        ((ps.take 3).map pyLine).get ⟨i, h3⟩ = pyLine (ps.get ⟨i, h⟩) ∧
        (ps.get ⟨i, h⟩).title.data <:+:
          (((ps.take 3).map pyLine).get ⟨i, h3⟩).data ∧
        (ps.get ⟨i, h⟩).difficulty.data <:+:
          (((ps.take 3).map pyLine).get ⟨i, h3⟩).data)) := by
  constructor
  · rintro ps rfl
    rfl
  · intro ps hne
    have hfmt : ((ps.take 3).map pyLine).isEmpty = false := by
      cases ps with
      | nil => exact absurd rfl hne
      | cons a as => rfl
    refine ⟨?_, ?_, ?_⟩
    · show (if ((ps.take 3).map pyLine).isEmpty = true then "-"
        else String.intercalate "\n" ((ps.take 3).map pyLine)) = _
      rw [hfmt]
      simp
    · rw [List.length_map, List.length_take]
    · intro i h h3
      have hget : ((ps.take 3).map pyLine).get ⟨i, h3⟩ = pyLine (ps.get ⟨i, h⟩) := by
        simp [List.get_eq_getElem, List.getElem_map, List.getElem_take]
      refine ⟨hget, ?_, ?_⟩
      · rw [hget]
        exact (pyLine_parts _).1
      · rw [hget]
        exact (pyLine_parts _).2

/-- Witness for C10: the empty case and a singleton instantiation. -/
theorem c10_format_problems_spec_witness :
    format_problems [] = "-" ∧
    format_problems [⟨"T", "Easy", "u"⟩] =
      String.intercalate "\n" ((([⟨"T", "Easy", "u"⟩] : List Problem).take 3).map pyLine) ∧
    ((([⟨"T", "Easy", "u"⟩] : List Problem).get ⟨0, by decide⟩).title.data <:+:
      (((([⟨"T", "Easy", "u"⟩] : List Problem).take 3).map pyLine).get
        ⟨0, by decide⟩).data) :=
  ⟨c10_format_problems_spec.1 [] rfl,
   (c10_format_problems_spec.2 [⟨"T", "Easy", "u"⟩] (by decide)).1,
   ((c10_format_problems_spec.2 [⟨"T", "Easy", "u"⟩] (by decide)).2.2 0 (by decide)
     (by decide)).2.1⟩

/-! ## C9: `GeminiSummarizer.summarize_patterns`

The LLM client is modelled by `respond : String → Option String`, mapping a
prompt to the text of the model response (`none` when the response object
carries no text). -/

structure SummaryRecord where
  pattern : String
  url : String
  summary : String
  top_problems : String
deriving Repr, DecidableEq

/-- `build_prompt` from `src/aggregator/gemini.py`. -/
def build_prompt (pattern_name : String) (problems : List Problem) (notes : String) :
    String :=
  let problems_text := String.intercalate "\n"
    ((problems.take 8).map (fun p => "- " ++ p.title ++ " (" ++ p.difficulty ++ ")"))
  "You are summarizing a LeetCode pattern for a study sheet.\n" ++
  "Pattern: " ++ pattern_name ++ "\n" ++
  "Context: " ++ (if notes == "" then "No extra notes provided." else notes) ++ "\n" ++
  "Representative problems:\n" ++
  (if problems_text == "" then "- No problems listed." else problems_text) ++ "\n\n" ++
  "Write a crisp 1-2 sentence description that explains the core idea, when to use it, " ++
  "and the intuition a learner should remember. Avoid verbosity and avoid code. " ++
  "Keep it under 420 characters."

/-- `GeminiSummarizer._summarize_single`: resolve defaults, call the model,
fall back to a templated placeholder when the response has no text. -/
def summarize_single (respond : String → Option String) (p : Pattern) : SummaryRecord :=
  let pattern_name := if p.pattern == "" then "Unknown Pattern" else p.pattern
  let prompt := build_prompt pattern_name p.problems p.notes
  let summary_raw :=
    match respond prompt with
    | some t => pyStrip t
    | none => ""
  let summary_text := if summary_raw == "" then
      pattern_name ++ ": core idea summary unavailable; review pattern notes."
    else summary_raw
  ⟨pattern_name, p.url, summary_text, format_problems p.problems⟩

/-- `GeminiSummarizer.summarize_patterns`: one summary per pattern, in order. -/
def summarize_patterns (respond : String → Option String) (ps : List Pattern) :
    List SummaryRecord :=
  ps.map (summarize_single respond)

theorem string_append_ne_empty_right (a b : String) (hb : b ≠ "") : a ++ b ≠ "" := by
  intro h
  apply hb
  have hdata : (a ++ b).data = ([] : List Char) := by rw [h]
  rw [String.data_append] at hdata
  obtain ⟨-, h2⟩ := List.append_eq_nil.mp hdata
  cases b with
  | mk d =>
    simp only [String.data] at h2
    rw [h2]

theorem summary_text_ne_empty (name inner : String) :
    (if inner == "" then
      name ++ ": core idea summary unavailable; review pattern notes."
    else inner) ≠ "" := by
  by_cases h : inner == ""
  · rw [if_pos h]
    exact string_append_ne_empty_right _ _ (by decide)
  · rw [if_neg h]
    simpa using h

/-- C9: `summarize_patterns` yields exactly one summary per input record, in
order; the `i`-th output's `pattern` and `url` come from the `i`-th input;
the summary is never empty (a templated placeholder is substituted when the
model response carries no text); and `top_problems` is built from at most
the first 3 of that record's problems. -/
theorem c9_summarize_patterns_spec :
    (∀ (respond : String → Option String) (ps : List Pattern),
      (summarize_patterns respond ps).length = ps.length) ∧
    (∀ (respond : String → Option String) (ps : List Pattern) (i : Nat)
      (h : i < ps.length) (h' : i < (summarize_patterns respond ps).length),
      (summarize_patterns respond ps).get ⟨i, h'⟩ =
        summarize_single respond (ps.get ⟨i, h⟩)) ∧
    (∀ (respond : String → Option String) (p : Pattern),
      (summarize_single respond p).pattern =
        (if p.pattern == "" then "Unknown Pattern" else p.pattern) ∧
      (summarize_single respond p).url = p.url ∧
      (summarize_single respond p).summary ≠ "" ∧
      (summarize_single respond p).top_problems = format_problems p.problems ∧
      format_problems p.problems = format_problems (p.problems.take 3) ∧
      (respond (build_prompt (if p.pattern == "" then "Unknown Pattern" else p.pattern)
          p.problems p.notes) = none →
        (summarize_single respond p).summary =
          (if p.pattern == "" then "Unknown Pattern" else p.pattern) ++
            ": core idea summary unavailable; review pattern notes.")) := by
  refine ⟨?_, ?_, ?_⟩
  · intro respond ps
    simp [summarize_patterns]
  · intro respond ps i h h'
    simp [summarize_patterns]
  · intro respond p
    refine ⟨rfl, rfl, summary_text_ne_empty _ _, rfl, ?_, ?_⟩
    · simp [format_problems, List.take_take]
    · intro hnone
      simp only [summarize_single, hnone]
      rfl

/-- Witness for C9: a model that never returns text yields the placeholder
summary on a concrete pattern. -/
theorem c9_summarize_patterns_spec_witness :
    (summarize_patterns (fun _ => none) [⟨"P", "u", [], "n"⟩]).get ⟨0, by decide⟩ =
      summarize_single (fun _ => none)
        (([⟨"P", "u", [], "n"⟩] : List Pattern).get ⟨0, by decide⟩) ∧
    (summarize_single (fun _ => none) ⟨"P", "u", [], "n"⟩).summary =
      "P" ++ ": core idea summary unavailable; review pattern notes." :=
  ⟨c9_summarize_patterns_spec.2.1 (fun _ => none) [⟨"P", "u", [], "n"⟩] 0
      (by decide) (by decide),
   (c9_summarize_patterns_spec.2.2 (fun _ => none) ⟨"P", "u", [], "n"⟩).2.2.2.2.2 rfl⟩

/-! ## `scrape_patterns` (C1, C3)

The effectful steps of `scrape_patterns` are modelled by a record of their
run outcomes: `html` is the result of `fetch_html` (`none` when it raised),
`next_data_patterns` the combined result of `extract_next_data` +
`extract_patterns_from_next_data` on that HTML (`[]` when the payload is
absent, unparsable, or matches nothing), `html_patterns` the result of the
`extract_patterns_from_html` heuristic, `fallback_patterns` the result of
`fetch_fallback_patterns` (`[]` on any error or non-list payload),
`local_fallback` the result of `load_local_fallback`, and `additional` the
result of `fetch_additional_sources`. -/

structure ScrapeOutcome where
  html : Option String
  next_data_patterns : List RawPattern
  html_patterns : List RawPattern
  fallback_patterns : List RawPattern
  local_fallback : List RawPattern
  additional : List RawPattern

/-- The primary extraction: structured payload wins; the HTML heuristic is
consulted only when it yields nothing; nothing without HTML. -/
def primary_patterns (o : ScrapeOutcome) : List RawPattern :=
  match o.html with
  | none => []
  | some _ => if o.next_data_patterns.isEmpty then o.html_patterns
              else o.next_data_patterns

/-- The fallback chain
`fetch_fallback_patterns(...) or load_local_fallback() or LOCAL_MINIMAL_FALLBACK`:
Python `or` keeps the first non-empty list. -/
def fallback_chain (remote localf : List RawPattern) : List RawPattern :=
  if !remote.isEmpty then remote
  else if !localf.isEmpty then localf
  else LOCAL_MINIMAL_FALLBACK

/-- The raw pattern pool `scrape_patterns` goes on to normalize: the primary
result, replaced by the fallback chain when empty and fallback is allowed,
plus the additional sources. -/
def scrape_pool (o : ScrapeOutcome) (allow_fallback : Bool) : List RawPattern :=
  (if (primary_patterns o).isEmpty && allow_fallback then
    fallback_chain o.fallback_patterns o.local_fallback
  else primary_patterns o) ++ o.additional

/-- The final stretch of `scrape_patterns`: normalize every entry, keep the
records with a truthy name and a non-empty problem list, dedupe, enrich. -/
def finalize (pool : List RawPattern) (base_url : String) : List Pattern :=
  enrich_problem_lists
    (dedupe_patterns
      ((pool.map (fun e => normalize_pattern e base_url)).filter
        (fun p => !(p.pattern == "") && !p.problems.isEmpty))) 8

/-- `scrape_patterns` from `src/aggregator/aggregator.py`, as a function of
the outcomes of its effectful steps. -/
def scrape_patterns (o : ScrapeOutcome) (base_url : String)
    (allow_fallback : Bool := true) : List Pattern :=
  finalize (scrape_pool o allow_fallback) base_url

/-- C3: when the primary extraction yields nothing, `scrape_patterns`
normalizes exactly the fallback chain's pick (plus additional sources), and
that pick is the remote fallback if non-empty, else the local fallback file
result if non-empty, else the hardcoded minimal set — never a merge. -/
theorem c3_fallback_chain_spec :
    (∀ (o : ScrapeOutcome) (base_url : String), primary_patterns o = [] →
      scrape_patterns o base_url true =
        finalize (fallback_chain o.fallback_patterns o.local_fallback ++ o.additional)
          base_url) ∧
    (∀ remote localf : List RawPattern, remote ≠ [] →
      fallback_chain remote localf = remote) ∧
    (∀ remote localf : List RawPattern, remote = [] → localf ≠ [] →
      fallback_chain remote localf = localf) ∧
    (∀ remote localf : List RawPattern, remote = [] → localf = [] →
      fallback_chain remote localf = LOCAL_MINIMAL_FALLBACK) := by
  refine ⟨?_, ?_, ?_, ?_⟩
  · intro o base_url hprim
    unfold scrape_patterns scrape_pool
    rw [hprim]
    rfl
  · intro remote localf h
    unfold fallback_chain
    rw [if_pos]
    simpa using h
  · rintro remote localf rfl h
    unfold fallback_chain
    rw [if_neg (by simp), if_pos]
    simpa using h
  · rintro remote localf rfl rfl
    rfl

/-- Witness for C3: a fully-failing run (no HTML, empty fallbacks). -/
theorem c3_fallback_chain_spec_witness :
    scrape_patterns ⟨none, [], [], [], [], []⟩ "b" true =
      finalize (fallback_chain [] [] ++ []) "b" ∧
    fallback_chain [{ pattern := some "X" }] [] = [{ pattern := some "X" }] ∧
    fallback_chain [] [{ pattern := some "Y" }] = [{ pattern := some "Y" }] ∧
    fallback_chain [] [] = LOCAL_MINIMAL_FALLBACK :=
  ⟨c3_fallback_chain_spec.1 ⟨none, [], [], [], [], []⟩ "b" rfl,
   c3_fallback_chain_spec.2.1 [{ pattern := some "X" }] [] (by simp),
   c3_fallback_chain_spec.2.2.1 [] [{ pattern := some "Y" }] rfl (by simp),
   c3_fallback_chain_spec.2.2.2 [] [] rfl rfl⟩

/-! ## C1: non-emptiness of `scrape_patterns` -/

/-- C1 counterexample to the claim as stated: when the primary fetch fails
and the remote fallback returns the non-empty JSON list `[{}]` (a list with
one empty object), no built-in fallback is consulted, the lone entry is
filtered out for lacking a name and problems, and the result is empty. -/
theorem c1_scrape_counterexample :
    scrape_patterns ⟨none, [], [], [{}], [], []⟩
      "https://seanprashad.com/leetcode-patterns/" true = [] := by
  decide

/-- The first entry of `LOCAL_MINIMAL_FALLBACK` (used to exhibit a
surviving record on the minimal-fallback path). -/
def minimalTwoPointersRaw : RawPattern :=
  { pattern := some "Two Pointers", url := some "",
    notes := some "Move two indices from ends or same side to shrink search space.",
    problems := some [
      { title := some "Two Sum II - Input Array Is Sorted", difficulty := some "Medium",
        url := some "https://leetcode.com/problems/two-sum-ii-input-array-is-sorted/" },
      { title := some "3Sum", difficulty := some "Medium",
        url := some "https://leetcode.com/problems/3sum/" },
      { title := some "Container With Most Water", difficulty := some "Medium",
        url := some "https://leetcode.com/problems/container-with-most-water/" }] }

theorem dedupe_patterns_ne_nil {ps : List Pattern} (h : ps ≠ []) :
    dedupe_patterns ps ≠ [] := by
  cases ps with
  | nil => exact absurd rfl h
  | cons p ps =>
    show dedupeAux (p :: ps) [] ≠ []
    simp only [dedupeAux]
    rw [if_neg (by simp)]
    exact List.cons_ne_nil _ _

/-- C1 (amended): with `allow_fallback = True`, `scrape_patterns` returns a
non-empty list provided some entry of the selected pattern pool normalizes
to a record with truthy name and non-empty problems; in particular this
always holds when the primary extraction, the remote fallback and the local
fallback all come back empty, because the hardcoded minimal set is then
selected and its entries survive normalization.  (A fallback source
returning only degenerate entries defeats the guarantee, per the
counterexample.) -/
theorem c1_scrape_nonempty_amended :
    (∀ (o : ScrapeOutcome) (base_url : String),
      (∃ e ∈ scrape_pool o true,
        ¬((normalize_pattern e base_url).pattern = "") ∧
        (normalize_pattern e base_url).problems ≠ []) →
      scrape_patterns o base_url true ≠ []) ∧
    (∀ (o : ScrapeOutcome) (base_url : String),
      primary_patterns o = [] → o.fallback_patterns = [] → o.local_fallback = [] →
      scrape_patterns o base_url true ≠ []) := by
  have main : ∀ (o : ScrapeOutcome) (base_url : String),
      (∃ e ∈ scrape_pool o true,
        ¬((normalize_pattern e base_url).pattern = "") ∧
        (normalize_pattern e base_url).problems ≠ []) →
      scrape_patterns o base_url true ≠ [] := by
    intro o base_url ⟨e, hmem, hname, hprob⟩
    unfold scrape_patterns finalize
    have hfil : normalize_pattern e base_url ∈
        ((scrape_pool o true).map (fun e => normalize_pattern e base_url)).filter
          (fun p => !(p.pattern == "") && !p.problems.isEmpty) := by
      rw [List.mem_filter]
      refine ⟨List.mem_map.mpr ⟨e, hmem, rfl⟩, ?_⟩
      simp only [Bool.and_eq_true, Bool.not_eq_true', beq_eq_false_iff_ne, ne_eq,
        List.isEmpty_eq_false]
      exact ⟨hname, hprob⟩
    have hded := dedupe_patterns_ne_nil (List.ne_nil_of_mem hfil)
    simp only [enrich_problem_lists, ne_eq, List.map_eq_nil_iff]
    exact hded
  refine ⟨main, ?_⟩
  intro o base_url hprim hrem hloc
  apply main
  refine ⟨minimalTwoPointersRaw, ?_, ?_, ?_⟩
  · unfold scrape_pool
    rw [hprim, hrem, hloc]
    refine List.mem_append_left _ ?_
    decide
  · intro hcontra
    have hclosed : firstTruthy [minimalTwoPointersRaw.pattern,
        minimalTwoPointersRaw.name, minimalTwoPointersRaw.title] "" = "" := hcontra
    revert hclosed
    decide
  · intro hcontra
    have hclosed : normalize_problems (firstTruthyL
        [minimalTwoPointersRaw.problems, minimalTwoPointersRaw.questions]) =
        ([] : List Problem) := hcontra
    revert hclosed
    decide

/-- Witness for C1 (amended): the all-fallbacks-empty run is non-empty. -/
theorem c1_scrape_nonempty_amended_witness :
    scrape_patterns ⟨none, [], [], [], [], []⟩ "b" true ≠ [] :=
  c1_scrape_nonempty_amended.2 ⟨none, [], [], [], [], []⟩ "b" rfl rfl rfl

/-! ## C4: `extract_patterns_from_next_questions`

A JSON value type (mutual with its array/object spines so that equality is
decidable), the question-collecting walk of `_collect_questions`, and the
tag-grouping of `extract_patterns_from_next_questions`. -/

mutual
inductive Json where
  | null : Json
  | bool : Bool → Json
  | num : Int → Json
  | str : String → Json
  | arr : JsonArr → Json
  | obj : JsonObj → Json
deriving Repr, DecidableEq

inductive JsonArr where
  | nil : JsonArr
  | cons : Json → JsonArr → JsonArr
deriving Repr, DecidableEq

inductive JsonObj where
  | nil : JsonObj
  | cons : String → Json → JsonObj → JsonObj
deriving Repr, DecidableEq
end

def JsonArr.toList : JsonArr → List Json
  | .nil => []
  | .cons x xs => x :: xs.toList

def JsonObj.toList : JsonObj → List (String × Json)
  | .nil => []
  | .cons k v kvs => (k, v) :: kvs.toList

/-- Python truthiness of a JSON value. -/
def truthyJ : Json → Bool
  | .null => false
  | .bool b => b
  | .num n => n != 0
  | .str s => s != ""
  | .arr xs => !xs.toList.isEmpty
  | .obj kvs => !kvs.toList.isEmpty

/-- `d.get(k)` on a JSON object. -/
def objGet (kvs : JsonObj) (k : String) : Option Json :=
  (kvs.toList.find? (fun kv => kv.1 == k)).map (fun kv => kv.2)

/-- `k in d` on a JSON object. -/
def hasKey (kvs : JsonObj) (k : String) : Bool :=
  (objGet kvs k).isSome

/-- `d.get(k1) or d.get(k2) or ... or dflt` over JSON values. -/
def getOr (kvs : JsonObj) (keys : List String) (dflt : Json) : Json :=
  match keys with
  | [] => dflt
  | k :: rest =>
    match objGet kvs k with
    | some v => if truthyJ v then v else getOr kvs rest dflt
    | none => getOr kvs rest dflt

/-- A collected question, as produced by `_collect_questions`'s
`normalize_question` (its `tags` value is kept as raw JSON items). -/
structure NQ where
  title : Json
  difficulty : Json
  url : Json
  tags : List Json
deriving Repr, DecidableEq

/-- `is_question` from `_collect_questions`: a title-like key plus a
difficulty/tag-like key. -/
def is_question (kvs : JsonObj) : Bool :=
  (hasKey kvs "title" || hasKey kvs "name" || hasKey kvs "question") &&
  (hasKey kvs "difficulty" || hasKey kvs "level" || hasKey kvs "tier" ||
   hasKey kvs "tags" || hasKey kvs "topics")

/-- `needle in hay` (Python substring test). -/
def containsSub (needle : List Char) : List Char → Bool
  | [] => needle.isEmpty
  | c :: t => needle.isPrefixOf (c :: t) || containsSub needle t

/-- `normalize_question` from `_collect_questions`.  A non-string slug is
left unused (in the source a non-string slug would be interpolated by the
f-string; no such payloads are modelled). -/
def normalize_question (kvs : JsonObj) (source_url : Option String) : NQ :=
  let title := getOr kvs ["title", "name", "question"] (.str "")
  let difficulty := getOr kvs ["difficulty", "level", "tier"] (.str "Unknown")
  let url0 := getOr kvs ["url", "link", "leetcode_url", "path"] (.str "")
  let slug := getOr kvs ["slug", "problemSlug"] (.str "")
  let url := if !truthyJ url0 && truthyJ slug then
      match slug with
      | .str s =>
        if containsSub "neetcode.io".data (source_url.getD "").data then
          Json.str ("https://neetcode.io/problems/" ++ s)
        else Json.str ("https://leetcode.com/problems/" ++ s ++ "/")
      | _ => url0
    else url0
  let tagsJ := getOr kvs ["tags", "topics", "topicTags"] (.arr .nil)
  let tags : List Json :=
    match tagsJ with
    | .arr xs => xs.toList
    | .obj kvs' => kvs'.toList.map (fun kv => kv.2)
    | _ => []
  ⟨title, difficulty, url, tags⟩

mutual
/-- The `walk` of `_collect_questions` on a JSON value: question-shaped
objects are collected (before their values are walked), arrays and object
values are walked in order. -/
def collectJ (src : Option String) : Json → List NQ
  | .arr xs => collectA src xs
  | .obj kvs =>
    (if is_question kvs then [normalize_question kvs src] else []) ++ collectO src kvs
  | _ => []

def collectA (src : Option String) : JsonArr → List NQ
  | .nil => []
  | .cons x xs => collectJ src x ++ collectA src xs

def collectO (src : Option String) : JsonObj → List NQ
  | .nil => []
  | .cons _ v kvs => collectJ src v ++ collectO src kvs
end

/-- Tag-name resolution in `extract_patterns_from_next_questions`: a dict
tag yields `t.get("name") or t.get("slug") or t.get("title")` (collapsing
the all-falsy outcome to `null`, which Python leaves falsy too), a string
tag yields itself, anything else is not appended. -/
def tagNameOf (t : Json) : Option Json :=
  match t with
  | .obj kvs => some (getOr kvs ["name", "slug", "title"] .null)
  | .str s => some (.str s)
  | _ => none

/-- The `tag_names` list built for one question. -/
def tag_names (q : NQ) : List Json :=
  q.tags.filterMap tagNameOf

/-- `tag_names` after the `if not tag_names: tag_names = ["General"]` default. -/
def effective_tags (q : NQ) : List Json :=
  if (tag_names q).isEmpty then [.str "General"] else tag_names q

/-- `grouped[tag].append(q)` on an insertion-ordered association list. -/
def addToGroup (g : List (Json × List NQ)) (k : Json) (q : NQ) :
    List (Json × List NQ) :=
  match g with
  | [] => [(k, [q])]
  | (k', qs) :: rest =>
    if k' = k then (k', qs ++ [q]) :: rest else (k', qs) :: addToGroup rest k q

/-- The grouping loop: every truthy tag name of every question receives the
question, in question order. -/
def groupQuestions (qs : List NQ) : List (Json × List NQ) :=
  qs.foldl (fun g q =>
    (effective_tags q).foldl (fun g' t => if truthyJ t then addToGroup g' t q else g') g) []

/-- A synthesized pattern of `extract_patterns_from_next_questions`. -/
structure QPattern where
  pattern : Json
  problems : List NQ
  notes : String
deriving Repr, DecidableEq

/-- `extract_patterns_from_next_questions` from
`src/aggregator/aggregator.py`. -/
def extract_patterns_from_next_questions (payload : Json)
    (source_url : Option String) : List QPattern :=
  let questions := collectJ source_url payload
  if questions.isEmpty then []
  else
    (groupQuestions questions).map (fun kv =>
      ⟨kv.1, kv.2, "Sourced from " ++
        (if (source_url.getD "") == "" then "additional source"
         else source_url.getD "")⟩)

/-- The problems grouped under key `t` in a synthesized pattern list. -/
def contentOf (ps : List QPattern) (t : Json) : List NQ :=
  ((ps.find? (fun p => p.pattern == t)).map (fun p => p.problems)).getD []

/-- The problems grouped under key `t` in a raw group list. -/
def gContent (g : List (Json × List NQ)) (t : Json) : List NQ :=
  ((g.find? (fun kv => kv.1 == t)).map (fun kv => kv.2)).getD []

theorem gContent_nil (t : Json) : gContent [] t = [] := rfl

theorem gContent_cons_pos {k : Json} {qs : List NQ} {rest : List (Json × List NQ)}
    {t : Json} (h : k = t) : gContent ((k, qs) :: rest) t = qs := by
  unfold gContent
  rw [List.find?_cons_of_pos]
  · rfl
  · simpa using h

theorem gContent_cons_neg {k : Json} {qs : List NQ} {rest : List (Json × List NQ)}
    {t : Json} (h : k ≠ t) : gContent ((k, qs) :: rest) t = gContent rest t := by
  unfold gContent
  rw [List.find?_cons_of_neg]
  simpa using h

theorem gContent_addToGroup (g : List (Json × List NQ)) (k : Json) (q : NQ) (t : Json) :
    gContent (addToGroup g k q) t = gContent g t ++ (if k = t then [q] else []) := by
  induction g with
  | nil =>
    rw [show addToGroup [] k q = [(k, [q])] from rfl]
    by_cases hkt : k = t
    · rw [gContent_cons_pos hkt, gContent_nil]
      simp [hkt]
    · rw [gContent_cons_neg hkt]
      simp [gContent, hkt]
  | cons kv rest ih =>
    obtain ⟨k', qs⟩ := kv
    by_cases hk : k' = k
    · subst hk
      rw [show addToGroup ((k', qs) :: rest) k' q = (k', qs ++ [q]) :: rest from by
        simp [addToGroup]]
      by_cases hkt : k' = t
      · rw [gContent_cons_pos hkt, gContent_cons_pos hkt]
        simp [hkt]
      · rw [gContent_cons_neg hkt, gContent_cons_neg hkt]
        simp [hkt]
    · rw [show addToGroup ((k', qs) :: rest) k q = (k', qs) :: addToGroup rest k q from by
        simp [addToGroup, hk]]
      by_cases hkt : k' = t
      · rw [gContent_cons_pos hkt, gContent_cons_pos hkt]
        have hknt : k ≠ t := fun he => hk (hkt.trans he.symm)
        simp [hknt]
      · rw [gContent_cons_neg hkt, gContent_cons_neg hkt]
        exact ih

theorem gContent_tagsFold (q : NQ) (t : Json) (ht : truthyJ t = true) :
    ∀ (tags : List Json) (g : List (Json × List NQ)),
    gContent (tags.foldl (fun g' tg => if truthyJ tg then addToGroup g' tg q else g') g) t =
      gContent g t ++ List.replicate (List.count t tags) q := by
  intro tags
  induction tags with
  | nil => intro g; simp [List.count_nil]
  | cons tg tags ih =>
    intro g
    rw [List.foldl_cons, ih, List.count_cons]
    by_cases htg : truthyJ tg = true
    · rw [if_pos htg, gContent_addToGroup]
      by_cases hkt : tg = t
      · subst hkt
        simp [List.append_assoc, List.replicate_succ]
      · simp [hkt]
    · rw [if_neg htg]
      have hne : tg ≠ t := fun he => htg (he ▸ ht)
      simp [hne]

theorem gContent_groupQuestions (t : Json) (ht : truthyJ t = true) :
    ∀ (qs : List NQ) (g : List (Json × List NQ)),
    gContent (qs.foldl (fun g q =>
        (effective_tags q).foldl
          (fun g' tg => if truthyJ tg then addToGroup g' tg q else g') g) g) t =
      gContent g t ++ qs.flatMap
        (fun q => List.replicate (List.count t (effective_tags q)) q) := by
  intro qs
  induction qs with
  | nil => intro g; simp
  | cons q qs ih =>
    intro g
    rw [List.foldl_cons, ih, gContent_tagsFold q t ht, List.flatMap_cons,
      List.append_assoc]

theorem contentOf_extract (payload : Json) (src : Option String) (t : Json) :
    contentOf (extract_patterns_from_next_questions payload src) t =
      gContent (groupQuestions (collectJ src payload)) t := by
  unfold extract_patterns_from_next_questions
  by_cases hemp : (collectJ src payload).isEmpty
  · rw [if_pos hemp]
    have hnil : collectJ src payload = [] := by simpa using hemp
    rw [hnil]
    rfl
  · rw [if_neg hemp]
    unfold contentOf gContent
    rw [List.find?_map, Option.map_map]
    rfl

/-- A payload whose single question carries the two tags `"A"` and `"B"`. -/
def twoTagQuestionPayload : Json :=
  Json.arr (.cons (Json.obj (.cons "title" (.str "Q")
    (.cons "tags" (Json.arr (.cons (.str "A") (.cons (.str "B") .nil))) .nil))) .nil)

/-- The question collected from `twoTagQuestionPayload`. -/
def qQ : NQ := ⟨.str "Q", .str "Unknown", .str "", [.str "A", .str "B"]⟩

/-- C4 counterexample to the claim as stated: a question with tags
`["A", "B"]` is grouped under BOTH tags (one synthesized pattern per tag),
not under its first tag only. -/
theorem c4_first_tag_counterexample :
    extract_patterns_from_next_questions twoTagQuestionPayload (some "http://x") =
      [⟨.str "A", [qQ], "Sourced from http://x"⟩,
       ⟨.str "B", [qQ], "Sourced from http://x"⟩] ∧
    ((extract_patterns_from_next_questions twoTagQuestionPayload
        (some "http://x")).filter (fun p => p.problems.contains qQ)).length = 2 := by
  constructor
  · decide
  · decide

/-- C4 (amended): every synthesized pattern's notes cites the source URL
(or the literal `"additional source"` when none is given); for every truthy
tag value `t`, the pattern keyed `t` holds exactly the collected questions
once per occurrence of `t` among their effective tags (so a multi-tagged
question contributes to one synthesized pattern per distinct tag, not only
its first); and a collected question with an empty tag-name list is grouped
under `"General"`. -/
theorem c4_extract_grouping_spec :
    (∀ (payload : Json) (src : Option String) (p : QPattern),
      p ∈ extract_patterns_from_next_questions payload src →
      p.notes = "Sourced from " ++
        (if (src.getD "") == "" then "additional source" else src.getD "")) ∧
    (∀ (payload : Json) (src : Option String) (t : Json), truthyJ t = true →
      contentOf (extract_patterns_from_next_questions payload src) t =
        (collectJ src payload).flatMap
          (fun q => List.replicate (List.count t (effective_tags q)) q)) ∧
    (∀ (payload : Json) (src : Option String) (q : NQ),
      q ∈ collectJ src payload → tag_names q = [] →
      q ∈ contentOf (extract_patterns_from_next_questions payload src)
        (.str "General")) := by
  have hgroup : ∀ (payload : Json) (src : Option String) (t : Json),
      truthyJ t = true →
      contentOf (extract_patterns_from_next_questions payload src) t =
        (collectJ src payload).flatMap
          (fun q => List.replicate (List.count t (effective_tags q)) q) := by
    intro payload src t ht
    rw [contentOf_extract]
    unfold groupQuestions
    rw [gContent_groupQuestions t ht (collectJ src payload) [], gContent_nil]
    rfl
  refine ⟨?_, hgroup, ?_⟩
  · intro payload src p hp
    unfold extract_patterns_from_next_questions at hp
    by_cases hemp : (collectJ src payload).isEmpty
    · rw [if_pos hemp] at hp
      exact absurd hp (List.not_mem_nil p)
    · rw [if_neg hemp] at hp
      obtain ⟨kv, -, rfl⟩ := List.mem_map.mp hp
      rfl
  · intro payload src q hq htags
    rw [hgroup payload src (.str "General") (by decide)]
    rw [List.mem_flatMap]
    refine ⟨q, hq, ?_⟩
    have heff : effective_tags q = [.str "General"] := by
      unfold effective_tags
      rw [htags]
      rfl
    rw [heff]
    simp [List.count_cons]

/-- Witness for C4: the amended grouping statement instantiated on the
two-tag payload. -/
theorem c4_extract_grouping_spec_witness :
    (⟨.str "A", [qQ], "Sourced from http://x"⟩ : QPattern).notes =
      "Sourced from " ++
        (if ((some "http://x").getD "") == "" then "additional source"
         else (some "http://x").getD "") ∧
    contentOf (extract_patterns_from_next_questions twoTagQuestionPayload
        (some "http://x")) (.str "B") =
      (collectJ (some "http://x") twoTagQuestionPayload).flatMap
        (fun q => List.replicate (List.count (.str "B") (effective_tags q)) q) :=
  ⟨c4_extract_grouping_spec.1 twoTagQuestionPayload (some "http://x")
      ⟨.str "A", [qQ], "Sourced from http://x"⟩ (by decide),
   c4_extract_grouping_spec.2.1 twoTagQuestionPayload (some "http://x")
      (.str "B") (by decide)⟩
